import Mathlib

-- Verification development for a CLI chat client with seven HTTP tool
-- functions (geocoding, weather, web search, web fetch, YouTube search,
-- scholar search, flight search).  Each tool is embedded as a pure Lean
-- function of its arguments, the environment variables it reads, and the
-- outcome of the single outbound HTTP GET it may issue; the returned pair
-- carries the result dictionary and the list of outbound requests issued.

set_option autoImplicit false

-- JSON values, modelling the Python dictionaries the tools build and the
-- parsed bodies of HTTP responses.  Numbers are modelled as integers: no
-- claim depends on fractional numeric values.
inductive Json where
  | str : String → Json
  | num : Int → Json
  | bool : Bool → Json
  | null : Json
  | arr : List Json → Json
  | obj : List (String × Json) → Json

-- An outbound request, recorded as its query parameters (or a url entry).
abbrev Params := List (String × String)

def kvsLookup (key : String) : List (String × Json) → Option Json
  | [] => none
  | (k, v) :: rest => if k == key then some v else kvsLookup key rest

def Json.lookup (key : String) : Json → Option Json
  | .obj kvs => kvsLookup key kvs
  | _ => none

-- Python truthiness of a JSON-compatible value.
def Json.truthy : Json → Bool
  | .str s => s != ""
  | .num n => n != 0
  | .bool b => b
  | .null => false
  | .arr xs => !xs.isEmpty
  | .obj kvs => !kvs.isEmpty

def statusField (j : Json) : Option String :=
  match j.lookup "status" with
  | some (.str s) => some s
  | _ => none

def statusOk (j : Json) : Bool :=
  statusField j == some "success" || statusField j == some "error"

def hasErrorStr (j : Json) : Bool :=
  match j.lookup "error" with
  | some (.str _) => true
  | _ => false

def arrKeyLen (key : String) (j : Json) : Option Nat :=
  match j.lookup key with
  | some (.arr xs) => some xs.length
  | _ => none

-- The uniform SerpAPI-tool error dictionary {"status": "error", "error": msg}.
def errObj (msg : String) : Json :=
  .obj [("status", .str "error"), ("error", .str msg)]

-- The geocoding/weather error dictionary {"error": msg}.
def errDict (msg : String) : Json :=
  .obj [("error", .str msg)]

-- ASCII case mapping, modelling Python str.lower / str.upper on the
-- arguments these tools receive.
def pyLower (s : String) : String := String.mk (s.data.map Char.toLower)

def pyUpper (s : String) : String := String.mk (s.data.map Char.toUpper)

-- Python str.startswith.
def strStarts (s pre : String) : Bool :=
  pre.data.isPrefixOf s.data

-- Python sep.join(parts).
def joinWith (sep : String) : List String → String
  | [] => ""
  | a :: rest => rest.foldl (fun acc x => acc ++ sep ++ x) a

-- Python s.split(sep) for a non-empty separator, over character lists.
def splitOnSub (sep : List Char) : List Char → List (List Char)
  | [] => [[]]
  | c :: rest =>
    if sep ≠ [] ∧ sep.isPrefixOf (c :: rest) then
      [] :: splitOnSub sep (List.drop (sep.length - 1) rest)
    else
      match splitOnSub sep rest with
      | g :: gs => (c :: g) :: gs
      | [] => [[c]]
termination_by cs => cs.length
decreasing_by
  all_goals simp [List.length_drop]
  omega

-- Split a character list at every occurrence of a separator, modelling
-- Python str.split with a one-character separator.
def splitOnChar (sep : Char) (cs : List Char) : List (List Char) :=
  cs.foldr
    (fun c acc =>
      if c == sep then [] :: acc
      else
        match acc with
        | g :: gs => (c :: g) :: gs
        | [] => [[c]])
    [[]]

-- Python s.strip(): leading and trailing whitespace removed.
def pyStrip (cs : List Char) : List Char :=
  ((cs.dropWhile Char.isWhitespace).reverse.dropWhile Char.isWhitespace).reverse

-- Substring test, modelling Python `sub in s` on strings.
def listHasSub (sub s : List Char) : Bool :=
  (List.range (s.length + 1)).any (fun i => (s.drop i).take sub.length == sub)

def strContainsSub (s sub : String) : Bool :=
  listHasSub sub.data s.data

-- Python `key in data` on a JSON value: dict keys, list membership,
-- string containment; TypeError otherwise.
def Json.pyIn (key : String) : Json → Except String Bool
  | .obj kvs => .ok (kvs.any (fun kv => kv.1 == key))
  | .arr xs => .ok (xs.any (fun x => match x with | .str s => s == key | _ => false))
  | .str s => .ok (strContainsSub s key)
  | _ => .error "TypeError: argument is not iterable"

-- Python `data[key]`: KeyError when absent, TypeError on non-dicts.
def Json.pyIndex (key : String) : Json → Except String Json
  | .obj kvs =>
    match kvsLookup key kvs with
    | some v => .ok v
    | none => .error ("KeyError: " ++ key)
  | _ => .error "TypeError: indices must be integers"

-- Python `data.get(key, dflt)`: AttributeError on non-dicts.
def Json.pyGetD : Json → String → Json → Except String Json
  | .obj kvs, key, dflt => .ok ((kvsLookup key kvs).getD dflt)
  | _, _, _ => .error "AttributeError: object has no attribute get"

-- Python iteration over a JSON value: list elements, dict keys, string
-- characters; TypeError otherwise.
def Json.pyIter : Json → Except String (List Json)
  | .arr xs => .ok xs
  | .obj kvs => .ok (kvs.map (fun kv => Json.str kv.1))
  | .str s => .ok (s.data.map (fun c => Json.str (String.singleton c)))
  | _ => .error "TypeError: object is not iterable"

-- Python list slicing `xs[:n]` with an int bound (negative bounds count
-- from the end, clamped at zero).
def pySlice {α : Type} (n : Int) (xs : List α) : List α :=
  if 0 ≤ n then xs.take n.toNat else xs.take (xs.length - (-n).toNat)

-- Python `data[:n]` followed by iteration over the slice.
def Json.pySliceList (n : Int) : Json → Except String (List Json)
  | .arr xs => .ok (pySlice n xs)
  | .str s => .ok ((pySlice n s.data).map (fun c => Json.str (String.singleton c)))
  | _ => .error "TypeError: value is not subscriptable"

-- Python `data[:n]` kept as a value.
def Json.pySliceRaw (n : Int) : Json → Except String Json
  | .arr xs => .ok (.arr (pySlice n xs))
  | .str s => .ok (.str (String.mk (pySlice n s.data)))
  | _ => .error "TypeError: value is not subscriptable"

-- Sequential effectful map, modelling a Python for-loop that appends one
-- entry per element and propagates the first exception.
def exMapM {α β : Type} (f : α → Except String β) : List α → Except String (List β)
  | [] => .ok []
  | x :: xs =>
    match f x with
    | .error e => .error e
    | .ok y =>
      match exMapM f xs with
      | .error e => .error e
      | .ok ys =>
        .ok (y :: ys)

-- Python dict insertion: replaces the value in place when the key exists,
-- appends otherwise.
def dictInsert (k : String) (v : Json) : List (String × Json) → List (String × Json)
  | [] => [(k, v)]
  | (k1, v1) :: rest => if k1 == k then (k, v) :: rest else (k1, v1) :: dictInsert k v rest

-- Outcome of the single outbound HTTP GET a tool issues: a network-level
-- failure, or a response with status code, raw text, and the result of
-- parsing the body as JSON.
inductive HttpOutcome where
  | networkError : String → HttpOutcome
  | response : Nat → String → Except String Json → HttpOutcome

-- The environment variables the program reads.
structure Env where
  OPENAI_API_BASE_URL : Option String
  OPENAI_API_KEY : Option String
  MODEL_NAME : Option String
  SERPAPI_API_KEY : Option String

-- Python truthiness of an optional environment string: unset and empty
-- both count as absent (`if not api_key`).
def strTruthy : Option String → Option String
  | none => none
  | some s => if s == "" then none else some s

-- src/tools/geocoding.py: geocode builds one GET url and reshapes the
-- reply; `requests.raise_for_status` raises for codes in [400, 600), the
-- HTTPError handler and the generic handler produce {"error": msg}.
def geocodeUrl (city_name : String) : String :=
  "https://geocoding-api.open-meteo.com/v1/search?name=" ++ city_name ++
    "&count=10&language=en&format=json"

def geocode (city_name : String) (oracle : HttpOutcome) : Json × List Params :=
  let req : List Params := [[("url", geocodeUrl city_name)]]
  match oracle with
  | .networkError msg => (errDict ("Other error occurred: " ++ msg), req)
  | .response code _text body =>
    if 400 ≤ code ∧ code < 600 then
      (errDict ("HTTP error occurred: " ++ toString code ++ " Error for url: " ++
        geocodeUrl city_name), req)
    else
      match body with
      | .error e => (errDict ("Other error occurred: " ++ e), req)
      | .ok data =>
        match data.pyIn "results" with
        | .error e => (errDict ("Other error occurred: " ++ e), req)
        | .ok true => (data, req)
        | .ok false => (errDict "No results found for the given city", req)

-- src/tools/weather.py: get_weather returns the parsed body unchanged on
-- success.  The float coordinates appear only interpolated into the
-- request URL and are modelled by their decimal rendering.
def weatherUrl (latitude longitude : String) : String :=
  "https://api.open-meteo.com/v1/forecast?latitude=" ++ latitude ++
    "&longitude=" ++ longitude ++
    "&current=temperature_2m,is_day,precipitation,rain,showers,snowfall&timezone=America%2FChicago"

def get_weather (latitude longitude : String) (oracle : HttpOutcome) : Json × List Params :=
  let req : List Params := [[("url", weatherUrl latitude longitude)]]
  match oracle with
  | .networkError msg => (errDict ("Other error occurred: " ++ msg), req)
  | .response code _text body =>
    if 400 ≤ code ∧ code < 600 then
      (errDict ("HTTP error occurred: " ++ toString code ++ " Error for url: " ++
        weatherUrl latitude longitude), req)
    else
      match body with
      | .error e => (errDict ("Other error occurred: " ++ e), req)
      | .ok data => (data, req)

-- Shared SerpAPI response pieces. The four SerpAPI tools end their success
-- dictionaries with the same search_metadata block, differing only in the
-- engine label.
def metadataOf (engine : String) (sr : Json) : Except String Json :=
  match sr.pyGetD "search_metadata" (Json.obj []) with
  | .error e => .error e
  | .ok sm =>
    match sm.pyGetD "id" (Json.str "") with
    | .error e => .error e
    | .ok idv =>
      match sm.pyGetD "status" (Json.str "") with
      | .error e => .error e
      | .ok stv =>
        match sm.pyGetD "total_time_taken" (Json.num 0) with
        | .error e => .error e
        | .ok ttv =>
          .ok (.obj [("id", idv), ("status", stv), ("total_time_taken", ttv),
            ("engine", .str engine)])

-- `if key in sr: result[out] = sr[key]` — an optional copied field.
def optKeyField (sr : Json) (key : String) : Except String (List (String × Json)) :=
  match sr.pyIn key with
  | .error e => .error e
  | .ok true =>
    match sr.pyIndex key with
    | .error e => .error e
    | .ok v => .ok [(key, v)]
  | .ok false => .ok []

-- A field initialised to a default and replaced by `sr[key]` when present.
def ifKeyElse (sr : Json) (key : String) (dflt : Json) : Except String Json :=
  match sr.pyIn key with
  | .error e => .error e
  | .ok true => sr.pyIndex key
  | .ok false => .ok dflt

-- The uniform SerpAPI request/response pattern shared by web_search,
-- youtube_search, scholar_search and google_flights_search: one GET with
-- the prepared params, a non-200 reply or network failure or parse
-- failure becomes an error dictionary, and a failure while reshaping the
-- parsed body is caught by the generic handler with the tool's prefix.
def serpRun (params : Params) (pre : String) (build : Json → Except String Json)
    (oracle : HttpOutcome) : Json × List Params :=
  match oracle with
  | .networkError msg => (errObj ("Network error occurred: " ++ msg), [params])
  | .response code text body =>
    if code ≠ 200 then
      (errObj ("SerpAPI request failed with status code " ++ toString code ++ ": " ++ text),
        [params])
    else
      match body with
      | .error _ => (errObj "Failed to parse the search results.", [params])
      | .ok sr =>
        match build sr with
        | .ok r => (r, [params])
        | .error e => (errObj (pre ++ e), [params])

-- src/tools/web_search.py
def timeMap (t : String) : Option String :=
  if t == "past_day" then some "d"
  else if t == "past_week" then some "w"
  else if t == "past_month" then some "m"
  else if t == "past_year" then some "y"
  else none

def webSearchTbs (time_period : String) : Params :=
  if time_period != "" then
    match timeMap time_period with
    | some c => [("tbs", "qdr:" ++ c)]
    | none => []
  else []

def webSearchParams (query api_key : String) (num_results : Int)
    (time_period : String) : Params :=
  [("q", query), ("api_key", api_key), ("num", toString (min num_results 100)),
    ("safe", "active"), ("gl", "us"), ("hl", "en")] ++ webSearchTbs time_period

def webSearchItem (item : Json) : Except String Json :=
  match item.pyGetD "title" (Json.str "") with
  | .error e => .error e
  | .ok title =>
    match item.pyGetD "link" (Json.str "") with
    | .error e => .error e
    | .ok link =>
      match item.pyGetD "snippet" (Json.str "") with
      | .error e => .error e
      | .ok snippet =>
        match item.pyGetD "position" (Json.num 0) with
        | .error e => .error e
        | .ok position =>
          match item.pyGetD "displayed_link" (Json.str "") with
          | .error e => .error e
          | .ok displayed =>
            .ok (.obj [("title", title), ("link", link), ("snippet", snippet),
              ("position", position), ("displayed_link", displayed)])

def webSearchOrganic (num_results : Int) (sr : Json) : Except String (List Json) :=
  match sr.pyIn "organic_results" with
  | .error e => .error e
  | .ok false => .ok []
  | .ok true =>
    match sr.pyIndex "organic_results" with
    | .error e => .error e
    | .ok v =>
      match v.pySliceList num_results with
      | .error e => .error e
      | .ok items => exMapM webSearchItem items

-- The optional trailing fields of the web-search result dictionary, in the
-- order the source appends them.
def webSearchExtras (num_results : Int) (include_news : Bool) (sr : Json) :
    Except String (List (String × Json)) :=
  match optKeyField sr "answer_box" with
  | .error e => .error e
  | .ok ab =>
    match optKeyField sr "knowledge_graph" with
    | .error e => .error e
    | .ok kg =>
      match optKeyField sr "related_questions" with
      | .error e => .error e
      | .ok rq =>
        let newsComp : Except String (List (String × Json)) :=
          if include_news then
            match sr.pyIn "news_results" with
            | .error e => .error e
            | .ok true =>
              match sr.pyIndex "news_results" with
              | .error e => .error e
              | .ok v =>
                match v.pySliceRaw num_results with
                | .error e => .error e
                | .ok sliced => .ok [("news", sliced)]
            | .ok false => .ok []
          else .ok []
        match newsComp with
        | .error e => .error e
        | .ok news =>
          match optKeyField sr "pagination" with
          | .error e => .error e
          | .ok pag =>
            match metadataOf "Google" sr with
            | .error e => .error e
            | .ok meta =>
              .ok (ab ++ kg ++ rq ++ news ++ pag ++ [("search_metadata", meta)])

def webSearchBuild (query : String) (num_results : Int) (include_news : Bool)
    (sr : Json) : Except String Json :=
  match webSearchOrganic num_results sr with
  | .error e => .error e
  | .ok organic =>
    match webSearchExtras num_results include_news sr with
    | .error e => .error e
    | .ok extras =>
      .ok (.obj (("status", Json.str "success") :: ("query", Json.str query) ::
        ("organic_results", Json.arr organic) :: extras))

def web_search (query : String) (num_results : Option Int) (include_news : Option Bool)
    (time_period : Option String) (env : Env) (oracle : HttpOutcome) : Json × List Params :=
  let num_results := num_results.getD 10
  let include_news := include_news.getD false
  let time_period := time_period.getD "past_year"
  match strTruthy env.SERPAPI_API_KEY with
  | none =>
    (errObj "SERPAPI_API_KEY not found in environment variables. Please set this variable to use web search.", [])
  | some api_key =>
    serpRun (webSearchParams query api_key num_results time_period)
      "Error during web search: " (webSearchBuild query num_results include_news) oracle

-- src/tools/youtube_search.py.  The enumerated argument domains are the
-- Literal type hints of the source signature.
inductive SortBy where
  | relevance | upload_date | view_count | rating
deriving DecidableEq

inductive UploadDate where
  | last_hour | today | this_week | this_month | this_year
deriving DecidableEq

inductive Duration where
  | short | medium | long
deriving DecidableEq

def youtubeSortSp : SortBy → Option String
  | .relevance => none
  | .upload_date => some "CAI%253D"
  | .view_count => some "CAM%253D"
  | .rating => some "CAE%253D"

def youtubeDateSp : UploadDate → String
  | .last_hour => "EgIIAQ%253D%253D"
  | .today => "EgQIAhAB"
  | .this_week => "EgQIAxAB"
  | .this_month => "EgQIBBAB"
  | .this_year => "EgQIBRAB"

def youtubeDurationSp : Duration → String
  | .short => "EgQQARgB"
  | .medium => "EgQQARgC"
  | .long => "EgQQARgD"

-- Append to an existing sp parameter or create a new one.
def spCombine (cur : Option String) (add : String) : Option String :=
  match cur with
  | some s => some (s ++ "," ++ add)
  | none => some add

def youtubeSp (sort_by : SortBy) (upload_date : Option UploadDate)
    (duration : Option Duration) : Option String :=
  let sp := youtubeSortSp sort_by
  let sp := match upload_date with
    | some u => spCombine sp (youtubeDateSp u)
    | none => sp
  match duration with
  | some d => spCombine sp (youtubeDurationSp d)
  | none => sp

def youtubeParams (query api_key : String) (num_results : Int) (sort_by : SortBy)
    (upload_date : Option UploadDate) (duration : Option Duration) : Params :=
  [("search_query", query), ("api_key", api_key), ("engine", "youtube"),
    ("num", toString (min num_results 100)), ("gl", "us"), ("hl", "en"),
    ("safe", "active")] ++
  (match youtubeSp sort_by upload_date duration with
    | some s => [("sp", s)]
    | none => [])

-- `item.get(outer, {}).get(inner, "") if item.get(outer) else ""`.
def condNestedGet (item : Json) (outer inner : String) : Except String Json :=
  match item.pyGetD outer Json.null with
  | .error e => .error e
  | .ok t =>
    if t.truthy then
      match item.pyGetD outer (Json.obj []) with
      | .error e => .error e
      | .ok t2 =>
        match t2.pyGetD inner (Json.str "") with
        | .error e => .error e
        | .ok v => .ok v
    else .ok (Json.str "")

-- `if "link" in item and "v=" in item["link"]:` extract the video id from
-- `item["link"].split("v=")[1].split("&")[0]`.
def youtubeVideoId (item : Json) : Except String (Option String) :=
  match item.pyIn "link" with
  | .error e => .error e
  | .ok false => .ok none
  | .ok true =>
    match item.pyIndex "link" with
    | .error e => .error e
    | .ok lv =>
      match lv.pyIn "v=" with
      | .error e => .error e
      | .ok false => .ok none
      | .ok true =>
        match lv with
        | .str s =>
          let afterV := (splitOnSub ("v=".data) s.data).getD 1 []
          .ok (some (String.mk ((splitOnSub ("&".data) afterV).headD [])))
        | _ => .error "AttributeError: object has no attribute split"

def youtubeItem (item : Json) : Except String Json :=
  match item.pyGetD "title" (Json.str "") with
  | .error e => .error e
  | .ok title =>
    match item.pyGetD "link" (Json.str "") with
    | .error e => .error e
    | .ok link =>
      match condNestedGet item "thumbnail" "static" with
      | .error e => .error e
      | .ok thumbnail =>
        match condNestedGet item "channel" "name" with
        | .error e => .error e
        | .ok chName =>
          match condNestedGet item "channel" "link" with
          | .error e => .error e
          | .ok chLink =>
            match item.pyGetD "published_date" (Json.str "") with
            | .error e => .error e
            | .ok published =>
              match item.pyGetD "views" (Json.str "") with
              | .error e => .error e
              | .ok views =>
                match item.pyGetD "duration_text" (Json.str "") with
                | .error e => .error e
                | .ok dur =>
                  match item.pyGetD "description" (Json.str "") with
                  | .error e => .error e
                  | .ok descr =>
                    match item.pyGetD "extensions" (Json.arr []) with
                    | .error e => .error e
                    | .ok exts =>
                      match youtubeVideoId item with
                      | .error e => .error e
                      | .ok vid =>
                        .ok (.obj ([("title", title), ("link", link),
                          ("thumbnail", thumbnail),
                          ("channel", .obj [("name", chName), ("link", chLink)]),
                          ("published_date", published), ("views", views),
                          ("duration", dur), ("description", descr),
                          ("extensions", exts)] ++
                          (match vid with
                            | some v => [("video_id", Json.str v)]
                            | none => [])))

def youtubeVideos (num_results : Int) (sr : Json) : Except String (List Json) :=
  match sr.pyIn "video_results" with
  | .error e => .error e
  | .ok false => .ok []
  | .ok true =>
    match sr.pyIndex "video_results" with
    | .error e => .error e
    | .ok v =>
      match v.pySliceList num_results with
      | .error e => .error e
      | .ok items => exMapM youtubeItem items

def youtubeExtras (sr : Json) : Except String (List (String × Json)) :=
  match optKeyField sr "related_searches" with
  | .error e => .error e
  | .ok rel =>
    match sr.pyGetD "search_information" (Json.obj []) with
    | .error e => .error e
    | .ok si =>
      match si.pyGetD "total_results" (Json.str "") with
      | .error e => .error e
      | .ok tot =>
        match si.pyGetD "time_taken_displayed" (Json.str "") with
        | .error e => .error e
        | .ok ttd =>
          match metadataOf "YouTube" sr with
          | .error e => .error e
          | .ok meta =>
            .ok (rel ++ [("search_information",
              .obj [("total_results", tot), ("time_taken_displayed", ttd)]),
              ("search_metadata", meta)])

def youtubeBuild (query : String) (num_results : Int) (sr : Json) : Except String Json :=
  match youtubeVideos num_results sr with
  | .error e => .error e
  | .ok videos =>
    match youtubeExtras sr with
    | .error e => .error e
    | .ok extras =>
      .ok (.obj (("status", Json.str "success") :: ("query", Json.str query) ::
        ("videos", Json.arr videos) :: extras))

def youtube_search (query : String) (num_results : Int) (sort_by : SortBy)
    (upload_date : Option UploadDate) (duration : Option Duration)
    (env : Env) (oracle : HttpOutcome) : Json × List Params :=
  match strTruthy env.SERPAPI_API_KEY with
  | none =>
    (errObj "SERPAPI_API_KEY not found in environment variables. Please set this variable to use YouTube search.", [])
  | some api_key =>
    serpRun (youtubeParams query api_key num_results sort_by upload_date duration)
      "Error during YouTube search: " (youtubeBuild query num_results) oracle

-- src/tools/scholar_search.py
inductive ScholarSort where
  | relevance | date
deriving DecidableEq

inductive PubDate where
  | since_2023 | since_2020 | since_2017 | since_2014
deriving DecidableEq

def pubDateYear : PubDate → String
  | .since_2023 => "2023"
  | .since_2020 => "2020"
  | .since_2017 => "2017"
  | .since_2014 => "2014"

def scholarParams (query api_key : String) (num_results : Int) (sort_by : ScholarSort)
    (publication_date : Option PubDate) (author : Option String) : Params :=
  [("q", query), ("api_key", api_key), ("engine", "google_scholar"),
    ("num", toString (min num_results 20)), ("hl", "en")] ++
  (match strTruthy author with
    | some a => [("as_user", a)]
    | none => []) ++
  (match sort_by with
    | .date => [("as_sdt", "0,5")]
    | .relevance => []) ++
  (match publication_date with
    | some p => [("as_ylo", pubDateYear p)]
    | none => [])

-- `for resource in resources: if resource.get("title") == "PDF": ...; break`
def scholarFindPdf : List Json → Except String (Option Json)
  | [] => .ok none
  | r :: rs =>
    match r.pyGetD "title" Json.null with
    | .error e => .error e
    | .ok t =>
      match t with
      | .str s =>
        if s == "PDF" then
          match r.pyGetD "link" (Json.str "") with
          | .error e => .error e
          | .ok l => .ok (some l)
        else scholarFindPdf rs
      | _ => scholarFindPdf rs

def scholarItem (item : Json) : Except String Json :=
  match item.pyGetD "title" (Json.str "") with
  | .error e => .error e
  | .ok title =>
    match item.pyGetD "link" (Json.str "") with
    | .error e => .error e
    | .ok link =>
      match item.pyGetD "snippet" (Json.str "") with
      | .error e => .error e
      | .ok snippet =>
        match item.pyGetD "publication_info" (Json.obj []) with
        | .error e => .error e
        | .ok pubInfo =>
          match optKeyField item "authors" with
          | .error e => .error e
          | .ok authors =>
            let citedComp : Except String (List (String × Json)) :=
              match item.pyIn "inline_links" with
              | .error e => .error e
              | .ok false => .ok []
              | .ok true =>
                match item.pyIndex "inline_links" with
                | .error e => .error e
                | .ok il =>
                  match il.pyIn "cited_by" with
                  | .error e => .error e
                  | .ok false => .ok []
                  | .ok true =>
                    match il.pyIndex "cited_by" with
                    | .error e => .error e
                    | .ok cb =>
                      match cb.pyGetD "total" (Json.num 0) with
                      | .error e => .error e
                      | .ok tot =>
                        match cb.pyGetD "link" (Json.str "") with
                        | .error e => .error e
                        | .ok l =>
                          .ok [("cited_by", .obj [("total", tot), ("link", l)])]
            match citedComp with
            | .error e => .error e
            | .ok cited =>
              let versionsComp : Except String (List (String × Json)) :=
                match item.pyGetD "inline_links" (Json.obj []) with
                | .error e => .error e
                | .ok ild =>
                  match ild.pyIn "versions" with
                  | .error e => .error e
                  | .ok false => .ok []
                  | .ok true =>
                    match item.pyIndex "inline_links" with
                    | .error e => .error e
                    | .ok il =>
                      match il.pyIndex "versions" with
                      | .error e => .error e
                      | .ok vv =>
                        match vv.pyGetD "total" (Json.num 0) with
                        | .error e => .error e
                        | .ok tot =>
                          match vv.pyGetD "link" (Json.str "") with
                          | .error e => .error e
                          | .ok l =>
                            .ok [("versions", .obj [("total", tot), ("link", l)])]
              match versionsComp with
              | .error e => .error e
              | .ok versions =>
                let pdfComp : Except String (List (String × Json)) :=
                  match item.pyIn "resources" with
                  | .error e => .error e
                  | .ok false => .ok []
                  | .ok true =>
                    match item.pyIndex "resources" with
                    | .error e => .error e
                    | .ok rv =>
                      match rv.pyIter with
                      | .error e => .error e
                      | .ok rs =>
                        match scholarFindPdf rs with
                        | .error e => .error e
                        | .ok (some l) => .ok [("pdf_link", l)]
                        | .ok none => .ok []
                match pdfComp with
                | .error e => .error e
                | .ok pdf =>
                  .ok (.obj ([("title", title), ("link", link), ("snippet", snippet),
                    ("publication_info", pubInfo)] ++ authors ++ cited ++ versions ++ pdf))

-- scholar_search iterates the full organic_results list from the reply:
-- the source performs no client-side truncation to num_results.
def scholarOrganic (sr : Json) : Except String (List Json) :=
  match sr.pyIn "organic_results" with
  | .error e => .error e
  | .ok false => .ok []
  | .ok true =>
    match sr.pyIndex "organic_results" with
    | .error e => .error e
    | .ok v =>
      match v.pyIter with
      | .error e => .error e
      | .ok items => exMapM scholarItem items

def scholarBuild (query : String) (sr : Json) : Except String Json :=
  match scholarOrganic sr with
  | .error e => .error e
  | .ok organic =>
    match ifKeyElse sr "citations" (Json.arr []) with
    | .error e => .error e
    | .ok citations =>
      match ifKeyElse sr "profiles" (Json.arr []) with
      | .error e => .error e
      | .ok profiles =>
        match ifKeyElse sr "related_searches" (Json.arr []) with
        | .error e => .error e
        | .ok related =>
          match optKeyField sr "pagination" with
          | .error e => .error e
          | .ok pag =>
            match metadataOf "Google Scholar" sr with
            | .error e => .error e
            | .ok meta =>
              .ok (.obj (("status", Json.str "success") :: ("query", Json.str query) ::
                ("organic_results", Json.arr organic) ::
                ("citation_results", citations) :: ("profiles", profiles) ::
                ("related_searches", related) :: pag ++ [("search_metadata", meta)]))

def scholar_search (query : String) (num_results : Int) (sort_by : ScholarSort)
    (publication_date : Option PubDate) (author : Option String)
    (env : Env) (oracle : HttpOutcome) : Json × List Params :=
  match strTruthy env.SERPAPI_API_KEY with
  | none =>
    (errObj "SERPAPI_API_KEY not found in environment variables. Please set this variable to use Google Scholar search.", [])
  | some api_key =>
    serpRun (scholarParams query api_key num_results sort_by publication_date author)
      "Error during Google Scholar search: " (scholarBuild query) oracle

-- src/tools/web_fetch.py.  The BeautifulSoup parse of the fetched page is
-- an external library result and is therefore part of the oracle: the
-- repository's own contribution is the filtering, cleanup, truncation and
-- dictionary assembly below.
structure MetaTag where
  nameAttr : Option String
  propertyAttr : Option String
  contentAttr : Option String

structure PageLink where
  href : String
  text : String

structure Soup where
  -- soup.title (outer) and soup.title.string (inner, None for empty tags)
  title : Option (Option String)
  -- soup.get_text(separator=newline, strip=True) after script/style removal
  textContent : String
  metas : List MetaTag
  anchors : List PageLink

inductive FetchOutcome where
  | networkError : String → FetchOutcome
  | response : Nat → String → Nat → List (String × String) → Soup → FetchOutcome

-- requests response headers are case-insensitive.
def headerGet (key : String) (hs : List (String × String)) : Option String :=
  (hs.find? (fun h => pyLower h.1 == pyLower key)).map (fun h => h.2)

-- Python `a or b` over optional strings (empty strings are falsy).
def pyOrStr (a b : Option String) : Option String :=
  match a with
  | some s => if s == "" then b else some s
  | none => b

def metaTagsOf (metas : List MetaTag) : List (String × Json) :=
  metas.foldl
    (fun acc m =>
      match pyOrStr m.nameAttr m.propertyAttr, m.contentAttr with
      | some n, some c => if c == "" then acc else dictInsert n (Json.str c) acc
      | _, _ => acc)
    []

def titleJson : Option (Option String) → Json
  | none => .str ""
  | some none => .null
  | some (some s) => .str s

-- strip each line and drop blank lines.
def cleanText (text : String) : String :=
  joinWith "\n"
    ((((splitOnChar '\n' text.data).map (fun l => String.mk (pyStrip l)))).filter
      (fun l => l != ""))

def fetchLinks (anchors : List PageLink) : List Json :=
  (anchors.filter (fun l =>
    l.href != "" && !(strStarts l.href "#") && !(strStarts l.href "javascript:"))).map
    (fun l => Json.obj [("href", .str l.href),
      ("text", if l.text == "" then Json.null else .str l.text)])

def web_fetch (url : String) (extract_text : Bool) (oracle : FetchOutcome) :
    Json × List Params :=
  let req : List Params := [[("url", url)]]
  match oracle with
  | .networkError msg => (errObj ("Network error occurred: " ++ msg), req)
  | .response code text size headers soup =>
    if code ≠ 200 then
      (errObj ("Request failed with status code " ++ toString code ++ ": " ++ text), req)
    else
      let content_type := (headerGet "Content-Type" headers).getD ""
      let is_html := strContainsSub (pyLower content_type) "text/html"
      let base : List (String × Json) :=
        [("status", .str "success"), ("url", .str url),
          ("content_type", .str content_type), ("size", .num size),
          ("headers", .obj (headers.map (fun h => (h.1, Json.str h.2))))]
      if extract_text && is_html then
        (.obj (base ++ [("title", titleJson soup.title),
          ("text_content", .str (cleanText soup.textContent)),
          ("meta_tags", .obj (metaTagsOf soup.metas)),
          ("links", .arr ((fetchLinks soup.anchors).take 100))]), req)
      else
        (.obj (base ++ [("raw_content", .str text)]), req)

-- src/tools/google_flights.py
inductive Stops where
  | any | nonstop | onestop | twostops
deriving DecidableEq

inductive FlightClass where
  | economy | premium_economy | business | first
deriving DecidableEq

def flightClassParam : FlightClass → String
  | .economy => "ECONOMY"
  | .premium_economy => "PREMIUM_ECONOMY"
  | .business => "BUSINESS"
  | .first => "FIRST"

-- datetime.strptime(s, four-digit-year dash month dash day).date():
-- the year is exactly four digits, month and day one or two digits, the
-- value must be a real calendar date with year at least 1.
structure PyDate where
  year : Nat
  month : Nat
  day : Nat
deriving DecidableEq

def allDigits (cs : List Char) : Bool :=
  !cs.isEmpty && cs.all Char.isDigit

def digitsVal (cs : List Char) : Nat :=
  cs.foldl (fun a c => a * 10 + (c.toNat - 48)) 0

def leapYear (y : Nat) : Bool :=
  y % 4 == 0 && (y % 100 != 0 || y % 400 == 0)

def daysInMonth (y m : Nat) : Nat :=
  if m == 2 then (if leapYear y then 29 else 28)
  else if m == 4 || m == 6 || m == 9 || m == 11 then 30
  else 31

def parsePyDate (s : String) : Option PyDate :=
  match splitOnChar '-' s.data with
  | [y, m, d] =>
    if allDigits y && y.length == 4 && allDigits m && m.length ≤ 2 &&
        allDigits d && d.length ≤ 2 then
      let yn := digitsVal y
      let mn := digitsVal m
      let dn := digitsVal d
      if 1 ≤ yn && 1 ≤ mn && mn ≤ 12 && 1 ≤ dn && dn ≤ daysInMonth yn mn then
        some ⟨yn, mn, dn⟩
      else none
    else none
  | _ => none

def dateLt (a b : PyDate) : Bool :=
  a.year < b.year ||
    (a.year == b.year && (a.month < b.month ||
      (a.month == b.month && a.day < b.day)))

def flightsParams (origin destination departure_date currency : String)
    (return_date : Option String) (adults children infants : Int)
    (stops : Option Stops) (flight_class : FlightClass) (max_price : Option Int)
    (airlines : Option (List String)) (api_key : String) : Params :=
  [("engine", "google_flights"), ("api_key", api_key),
    ("departure_id", pyUpper origin), ("arrival_id", pyUpper destination),
    ("outbound_date", departure_date), ("currency", currency),
    ("adults", toString adults)] ++
  (match strTruthy return_date with
    | some r => [("return_date", r)]
    | none => []) ++
  (if children > 0 then [("children", toString children)] else []) ++
  (if infants > 0 then [("infants_in_seat", toString infants)] else []) ++
  [("flight_class", flightClassParam flight_class)] ++
  (match stops with
    | some .nonstop => [("max_stops", "0")]
    | some .onestop => [("max_stops", "1")]
    | some .twostops => [("max_stops", "2")]
    | _ => []) ++
  (match max_price with
    | some p => if p == 0 then [] else [("price_max", toString p)]
    | none => []) ++
  (match airlines with
    | some l => if l.length > 0 then [("airlines", joinWith "," l)] else []
    | none => [])

def flightsBestItem (flight : Json) : Except String Json :=
  match flight.pyGetD "flight_type" (Json.str "") with
  | .error e => .error e
  | .ok ft =>
    match flight.pyGetD "price" (Json.str "") with
    | .error e => .error e
    | .ok price =>
      match flight.pyGetD "duration" (Json.str "") with
      | .error e => .error e
      | .ok dur =>
        match condNestedGet flight "departure" "airport" with
        | .error e => .error e
        | .ok depAirport =>
          match condNestedGet flight "departure" "time" with
          | .error e => .error e
          | .ok depTime =>
            match condNestedGet flight "arrival" "airport" with
            | .error e => .error e
            | .ok arrAirport =>
              match condNestedGet flight "arrival" "time" with
              | .error e => .error e
              | .ok arrTime =>
                match flight.pyGetD "airline" (Json.str "") with
                | .error e => .error e
                | .ok airline =>
                  match flight.pyGetD "stops" (Json.num 0) with
                  | .error e => .error e
                  | .ok st =>
                    match flight.pyGetD "layovers" (Json.arr []) with
                    | .error e => .error e
                    | .ok lay =>
                      match flight.pyGetD "carbon_emissions" (Json.str "") with
                      | .error e => .error e
                      | .ok carbon =>
                        .ok (.obj [("flight_type", ft), ("price", price),
                          ("duration", dur),
                          ("departure", .obj [("airport", depAirport), ("time", depTime)]),
                          ("arrival", .obj [("airport", arrAirport), ("time", arrTime)]),
                          ("airline", airline), ("stops", st), ("layovers", lay),
                          ("carbon_emissions", carbon)])

def flightsOtherItem (flight : Json) : Except String Json :=
  match flight.pyGetD "price" (Json.str "") with
  | .error e => .error e
  | .ok price =>
    match flight.pyGetD "duration" (Json.str "") with
    | .error e => .error e
    | .ok dur =>
      match condNestedGet flight "departure" "airport" with
      | .error e => .error e
      | .ok depAirport =>
        match condNestedGet flight "departure" "time" with
        | .error e => .error e
        | .ok depTime =>
          match condNestedGet flight "arrival" "airport" with
          | .error e => .error e
          | .ok arrAirport =>
            match condNestedGet flight "arrival" "time" with
            | .error e => .error e
            | .ok arrTime =>
              match flight.pyGetD "airline" (Json.str "") with
              | .error e => .error e
              | .ok airline =>
                match flight.pyGetD "stops" (Json.num 0) with
                | .error e => .error e
                | .ok st =>
                  match flight.pyGetD "layovers" (Json.arr []) with
                  | .error e => .error e
                  | .ok lay =>
                    .ok (.obj [("price", price), ("duration", dur),
                      ("departure", .obj [("airport", depAirport), ("time", depTime)]),
                      ("arrival", .obj [("airport", arrAirport), ("time", arrTime)]),
                      ("airline", airline), ("stops", st), ("layovers", lay)])

def flightsSection (key : String) (item : Json → Except String Json) (sr : Json) :
    Except String (List Json) :=
  match sr.pyIn key with
  | .error e => .error e
  | .ok false => .ok []
  | .ok true =>
    match sr.pyIndex key with
    | .error e => .error e
    | .ok v =>
      match v.pyIter with
      | .error e => .error e
      | .ok items => exMapM item items

def optStrJson : Option String → Json
  | none => .null
  | some s => .str s

def flightsBuild (origin destination departure_date : String)
    (return_date : Option String) (sr : Json) : Except String Json :=
  match flightsSection "best_flights" flightsBestItem sr with
  | .error e => .error e
  | .ok best =>
    match flightsSection "other_flights" flightsOtherItem sr with
    | .error e => .error e
    | .ok other =>
      match ifKeyElse sr "airlines_information" (Json.arr []) with
      | .error e => .error e
      | .ok ai =>
        match ifKeyElse sr "price_insights" (Json.obj []) with
        | .error e => .error e
        | .ok pi =>
          match metadataOf "Google Flights" sr with
          | .error e => .error e
          | .ok meta =>
            .ok (.obj [("status", Json.str "success"),
              ("origin", .str (pyUpper origin)),
              ("destination", .str (pyUpper destination)),
              ("departure_date", .str departure_date),
              ("return_date", optStrJson return_date),
              ("best_flights", .arr best), ("other_flights", .arr other),
              ("airlines_information", ai), ("price_insights", pi),
              ("search_metadata", meta)])

def flightsRun (origin destination departure_date : String) (return_date : Option String)
    (adults children infants : Int) (stops : Option Stops) (flight_class : FlightClass)
    (max_price : Option Int) (currency : String) (airlines : Option (List String))
    (api_key : String) (oracle : HttpOutcome) : Json × List Params :=
  serpRun
    (flightsParams origin destination departure_date currency return_date
      adults children infants stops flight_class max_price airlines api_key)
    "Error during flight search: "
    (flightsBuild origin destination departure_date return_date) oracle

def google_flights_search (origin destination departure_date : String)
    (return_date : Option String) (adults children infants : Int)
    (stops : Option Stops) (flight_class : FlightClass) (max_price : Option Int)
    (currency : String) (airlines : Option (List String)) (today : PyDate)
    (env : Env) (oracle : HttpOutcome) : Json × List Params :=
  match strTruthy env.SERPAPI_API_KEY with
  | none =>
    (errObj "SERPAPI_API_KEY not found in environment variables. Please set this variable to use flight search.", [])
  | some api_key =>
    match parsePyDate departure_date with
    | none => (errObj "Invalid date format. Please use YYYY-MM-DD format.", [])
    | some departure =>
      if dateLt departure today then
        (errObj ("Departure date " ++ departure_date ++
          " is in the past. Please provide a future date."), [])
      else
        match strTruthy return_date with
        | some r =>
          match parsePyDate r with
          | none => (errObj "Invalid date format. Please use YYYY-MM-DD format.", [])
          | some return_day =>
            if dateLt return_day departure then
              (errObj ("Return date " ++ r ++ " cannot be before departure date " ++
                departure_date ++ "."), [])
            else
              flightsRun origin destination departure_date return_date adults children
                infants stops flight_class max_price currency airlines api_key oracle
        | none =>
          flightsRun origin destination departure_date return_date adults children
            infants stops flight_class max_price currency airlines api_key oracle

-- The date-validation predicate of google_flights_search: exactly the
-- inputs its validation block rejects before any request is issued.
def flightDatesRejected (departure_date : String) (return_date : Option String)
    (today : PyDate) : Bool :=
  match parsePyDate departure_date with
  | none => true
  | some departure =>
    if dateLt departure today then true
    else
      match strTruthy return_date with
      | some r =>
        match parsePyDate r with
        | none => true
        | some return_day => dateLt return_day departure
      | none => false

-- src/example.py module-level startup: reads OPENAI_API_BASE_URL,
-- OPENAI_API_KEY and MODEL_NAME once; only a falsy OPENAI_API_KEY raises,
-- and a falsy MODEL_NAME falls back to the default model name.
structure StartupConfig where
  BASE_URL : Option String
  API_KEY : String
  MODEL_NAME : String
deriving DecidableEq

def startup (env : Env) : Except String StartupConfig :=
  let base := env.OPENAI_API_BASE_URL
  let model := (strTruthy env.MODEL_NAME).getD "gpt-4o"
  match strTruthy env.OPENAI_API_KEY with
  | none => .error "Please set OPENAI_API_KEY in your .env file"
  | some key => .ok ⟨base, key, model⟩

-- src/example.py chat loop.  A streamed run item, as consumed from
-- run_item_stream_event events: it may expose an input-item dictionary
-- through to_input_item.
structure StreamItem where
  hasToInputItem : Bool
  inputItem : Json

-- The history entry an item contributes: only items with a truthy
-- to_input_item result are appended.
def itemInput (it : StreamItem) : Option Json :=
  if it.hasToInputItem && it.inputItem.truthy then some it.inputItem else none

def userItem (content : String) : Json :=
  .obj [("role", .str "user"), ("content", .str content)]

-- The history update at the end of a turn: the streamed items are appended
-- in arrival order; the user's input line is not appended.
def stepConversation (conversation : List Json) (final_items : List StreamItem) :
    List Json :=
  conversation ++ final_items.filterMap itemInput

-- What is forwarded to Runner.run_streamed: the raw input string on the
-- first turn, otherwise the stored history plus the new user message.
inductive RunInput where
  | text : String → RunInput
  | items : List Json → RunInput

def forwardedInput (conversation : List Json) (user_input : String) : RunInput :=
  if conversation.isEmpty then .text user_input
  else .items (conversation ++ [userItem user_input])

inductive StepResult where
  | exited
  | continued : List Json → StepResult

-- One iteration of the while-True loop: the lowercased input line is
-- compared against the exit sentinel before anything else happens.
def chatLoopStep (conversation : List Json) (user_input : String)
    (final_items : List StreamItem) : StepResult :=
  if pyLower user_input == "exit" then .exited
  else .continued (stepConversation conversation final_items)

def listHasRole (role : String) (items : List Json) : Bool :=
  items.any (fun j =>
    match j.lookup "role" with
    | some (.str s) => s == role
    | _ => false)

-- State-transformer lifts of the seven tools over an arbitrary
-- module-state type.  The source bodies assign no module-level name and
-- read no mutable module state (only arguments, os.environ and the HTTP
-- response), so each lift threads the state through unchanged.
def geocodeST {σ : Type} (city_name : String) (oracle : HttpOutcome) (s : σ) :
    (Json × List Params) × σ :=
  (geocode city_name oracle, s)

def get_weatherST {σ : Type} (latitude longitude : String) (oracle : HttpOutcome)
    (s : σ) : (Json × List Params) × σ :=
  (get_weather latitude longitude oracle, s)

def web_searchST {σ : Type} (query : String) (num_results : Option Int)
    (include_news : Option Bool) (time_period : Option String) (env : Env)
    (oracle : HttpOutcome) (s : σ) : (Json × List Params) × σ :=
  (web_search query num_results include_news time_period env oracle, s)

def web_fetchST {σ : Type} (url : String) (extract_text : Bool)
    (oracle : FetchOutcome) (s : σ) : (Json × List Params) × σ :=
  (web_fetch url extract_text oracle, s)

def youtube_searchST {σ : Type} (query : String) (num_results : Int) (sort_by : SortBy)
    (upload_date : Option UploadDate) (duration : Option Duration) (env : Env)
    (oracle : HttpOutcome) (s : σ) : (Json × List Params) × σ :=
  (youtube_search query num_results sort_by upload_date duration env oracle, s)

def scholar_searchST {σ : Type} (query : String) (num_results : Int)
    (sort_by : ScholarSort) (publication_date : Option PubDate)
    (author : Option String) (env : Env) (oracle : HttpOutcome) (s : σ) :
    (Json × List Params) × σ :=
  (scholar_search query num_results sort_by publication_date author env oracle, s)

def google_flights_searchST {σ : Type} (origin destination departure_date : String)
    (return_date : Option String) (adults children infants : Int)
    (stops : Option Stops) (flight_class : FlightClass) (max_price : Option Int)
    (currency : String) (airlines : Option (List String)) (today : PyDate)
    (env : Env) (oracle : HttpOutcome) (s : σ) : (Json × List Params) × σ :=
  (google_flights_search origin destination departure_date return_date adults children
    infants stops flight_class max_price currency airlines today env oracle, s)

-- ## Helper lemmas

theorem statusField_errObj (msg : String) : statusField (errObj msg) = some "error" := rfl

theorem statusOk_errObj (msg : String) : statusOk (errObj msg) = true := rfl

theorem hasErrorStr_errObj (msg : String) : hasErrorStr (errObj msg) = true := rfl

theorem hasErrorStr_errDict (msg : String) : hasErrorStr (errDict msg) = true := rfl

theorem statusField_success (kvs : List (String × Json)) :
    statusField (.obj (("status", Json.str "success") :: kvs)) = some "success" := rfl

theorem statusOk_success (kvs : List (String × Json)) :
    statusOk (.obj (("status", Json.str "success") :: kvs)) = true := rfl

theorem serpRun_requests (params : Params) (pre : String)
    (build : Json → Except String Json) (o : HttpOutcome) :
    (serpRun params pre build o).2 = [params] := by
  cases o with
  | networkError m => rfl
  | response code text body =>
    simp only [serpRun]
    split
    · rfl
    · cases body with
      | error e => rfl
      | ok sr => rcases hb : build sr with e | r <;> simp [hb]

theorem serpRun_statusOk (params : Params) (pre : String)
    (build : Json → Except String Json) (o : HttpOutcome)
    (hb : ∀ sr r, build sr = .ok r → statusOk r = true) :
    statusOk (serpRun params pre build o).1 = true := by
  cases o with
  | networkError m => exact statusOk_errObj _
  | response code text body =>
    simp only [serpRun]
    split
    · exact statusOk_errObj _
    · cases body with
      | error e => exact statusOk_errObj _
      | ok sr =>
        rcases hb2 : build sr with e | r
        · simp [hb2, statusOk_errObj]
        · simpa [hb2] using hb sr r hb2

theorem serpRun_network (params : Params) (pre : String)
    (build : Json → Except String Json) (m : String) :
    (serpRun params pre build (.networkError m)).1 =
      errObj ("Network error occurred: " ++ m) := rfl

theorem serpRun_non200 (params : Params) (pre : String)
    (build : Json → Except String Json) (code : Nat) (text : String)
    (body : Except String Json) (h : code ≠ 200) :
    (serpRun params pre build (.response code text body)).1 =
      errObj ("SerpAPI request failed with status code " ++ toString code ++ ": " ++ text) := by
  simp only [serpRun]
  rw [if_pos h]

theorem serpRun_parse200 (params : Params) (pre : String)
    (build : Json → Except String Json) (text e : String) :
    (serpRun params pre build (.response 200 text (.error e))).1 =
      errObj "Failed to parse the search results." := rfl

theorem exMapM_length {α β : Type} (f : α → Except String β) :
    ∀ (xs : List α) (ys : List β), exMapM f xs = .ok ys → ys.length = xs.length := by
  intro xs
  induction xs with
  | nil =>
    intro ys h
    unfold exMapM at h
    injection h with h
    rw [← h]
    rfl
  | cons x rest ih =>
    intro ys h
    unfold exMapM at h
    rcases h1 : f x with e | y <;> rw [h1] at h
    · exact Except.noConfusion h
    · rcases h2 : exMapM f rest with e | ys2 <;> rw [h2] at h
      · exact Except.noConfusion h
      · injection h with h
        rw [← h]
        simp [ih ys2 h2]

theorem pySlice_length {α : Type} (n : Int) (hn : 0 ≤ n) (xs : List α) :
    (pySlice n xs).length ≤ n.toNat := by
  unfold pySlice
  rw [if_pos hn]
  simp [List.length_take]

theorem pySliceList_length (n : Int) (hn : 0 ≤ n) (j : Json) (res : List Json)
    (h : j.pySliceList n = .ok res) : res.length ≤ n.toNat := by
  cases j <;> unfold Json.pySliceList at h <;> try exact Except.noConfusion h
  case arr xs =>
    injection h with h
    rw [← h]
    exact pySlice_length n hn xs
  case str s =>
    injection h with h
    rw [← h]
    simpa using pySlice_length n hn s.data

theorem kvsLookup_append (key : String) (l1 l2 : List (String × Json)) :
    kvsLookup key (l1 ++ l2) =
      (match kvsLookup key l1 with
        | some v => some v
        | none => kvsLookup key l2) := by
  induction l1 with
  | nil => rfl
  | cons kv rest ih =>
    rcases kv with ⟨k, v⟩
    simp only [List.cons_append, kvsLookup]
    by_cases h : k == key
    · simp [h]
    · simp [h, ih]

theorem webSearchBuild_ok_shape (q : String) (n : Int) (i : Bool) (sr r : Json)
    (h : webSearchBuild q n i sr = .ok r) :
    ∃ organic extras, webSearchOrganic n sr = .ok organic ∧
      r = .obj (("status", Json.str "success") :: ("query", Json.str q) ::
        ("organic_results", Json.arr organic) :: extras) := by
  unfold webSearchBuild at h
  rcases h1 : webSearchOrganic n sr with e | organic <;> simp only [h1] at h
  · exact Except.noConfusion h
  · rcases h2 : webSearchExtras n i sr with e | extras <;> simp only [h2] at h
    · exact Except.noConfusion h
    · injection h with h
      exact ⟨organic, extras, rfl, h.symm⟩

theorem youtubeBuild_ok_shape (q : String) (n : Int) (sr r : Json)
    (h : youtubeBuild q n sr = .ok r) :
    ∃ videos extras, youtubeVideos n sr = .ok videos ∧
      r = .obj (("status", Json.str "success") :: ("query", Json.str q) ::
        ("videos", Json.arr videos) :: extras) := by
  unfold youtubeBuild at h
  rcases h1 : youtubeVideos n sr with e | videos <;> simp only [h1] at h
  · exact Except.noConfusion h
  · rcases h2 : youtubeExtras sr with e | extras <;> simp only [h2] at h
    · exact Except.noConfusion h
    · injection h with h
      exact ⟨videos, extras, rfl, h.symm⟩

theorem scholarBuild_ok_shape (q : String) (sr r : Json)
    (h : scholarBuild q sr = .ok r) :
    ∃ kvs, r = .obj (("status", Json.str "success") :: kvs) := by
  unfold scholarBuild at h
  rcases h1 : scholarOrganic sr with e | organic <;> simp only [h1] at h
  · exact Except.noConfusion h
  rcases h2 : ifKeyElse sr "citations" (Json.arr []) with e | cit <;> simp only [h2] at h
  · exact Except.noConfusion h
  rcases h3 : ifKeyElse sr "profiles" (Json.arr []) with e | prof <;> simp only [h3] at h
  · exact Except.noConfusion h
  rcases h4 : ifKeyElse sr "related_searches" (Json.arr []) with e | rel <;> simp only [h4] at h
  · exact Except.noConfusion h
  rcases h5 : optKeyField sr "pagination" with e | pag <;> simp only [h5] at h
  · exact Except.noConfusion h
  rcases h6 : metadataOf "Google Scholar" sr with e | meta <;> simp only [h6] at h
  · exact Except.noConfusion h
  injection h with h
  exact ⟨_, h.symm⟩

theorem flightsBuild_ok_shape (ogn dst dd : String) (rd : Option String) (sr r : Json)
    (h : flightsBuild ogn dst dd rd sr = .ok r) :
    ∃ best other ai pi meta,
      r = .obj [("status", Json.str "success"), ("origin", .str (pyUpper ogn)),
        ("destination", .str (pyUpper dst)), ("departure_date", .str dd),
        ("return_date", optStrJson rd), ("best_flights", .arr best),
        ("other_flights", .arr other), ("airlines_information", ai),
        ("price_insights", pi), ("search_metadata", meta)] := by
  unfold flightsBuild at h
  rcases h1 : flightsSection "best_flights" flightsBestItem sr with e | best <;>
    simp only [h1] at h
  · exact Except.noConfusion h
  rcases h2 : flightsSection "other_flights" flightsOtherItem sr with e | other <;>
    simp only [h2] at h
  · exact Except.noConfusion h
  rcases h3 : ifKeyElse sr "airlines_information" (Json.arr []) with e | ai <;>
    simp only [h3] at h
  · exact Except.noConfusion h
  rcases h4 : ifKeyElse sr "price_insights" (Json.obj []) with e | pi <;>
    simp only [h4] at h
  · exact Except.noConfusion h
  rcases h5 : metadataOf "Google Flights" sr with e | meta <;> simp only [h5] at h
  · exact Except.noConfusion h
  injection h with h
  exact ⟨best, other, ai, pi, meta, h.symm⟩

theorem web_search_statusOk (q : String) (n : Option Int) (i : Option Bool)
    (t : Option String) (env : Env) (o : HttpOutcome) :
    statusOk (web_search q n i t env o).1 = true := by
  unfold web_search
  rcases hk : strTruthy env.SERPAPI_API_KEY with _ | key <;> simp only [hk]
  · exact statusOk_errObj _
  · exact serpRun_statusOk _ _ _ _ (fun sr r hb => by
      obtain ⟨organic, extras, -, rfl⟩ := webSearchBuild_ok_shape _ _ _ _ _ hb
      exact statusOk_success _)

theorem youtube_search_statusOk (q : String) (n : Int) (s : SortBy)
    (ud : Option UploadDate) (d : Option Duration) (env : Env) (o : HttpOutcome) :
    statusOk (youtube_search q n s ud d env o).1 = true := by
  unfold youtube_search
  rcases hk : strTruthy env.SERPAPI_API_KEY with _ | key <;> simp only [hk]
  · exact statusOk_errObj _
  · exact serpRun_statusOk _ _ _ _ (fun sr r hb => by
      obtain ⟨videos, extras, -, rfl⟩ := youtubeBuild_ok_shape _ _ _ _ hb
      exact statusOk_success _)

theorem scholar_search_statusOk (q : String) (n : Int) (s : ScholarSort)
    (p : Option PubDate) (a : Option String) (env : Env) (o : HttpOutcome) :
    statusOk (scholar_search q n s p a env o).1 = true := by
  unfold scholar_search
  rcases hk : strTruthy env.SERPAPI_API_KEY with _ | key <;> simp only [hk]
  · exact statusOk_errObj _
  · exact serpRun_statusOk _ _ _ _ (fun sr r hb => by
      obtain ⟨kvs, rfl⟩ := scholarBuild_ok_shape _ _ _ hb
      exact statusOk_success _)

theorem flightsRun_statusOk (ogn dst dd : String) (rd : Option String)
    (ad ch inf : Int) (st : Option Stops) (fc : FlightClass) (mp : Option Int)
    (cur : String) (al : Option (List String)) (key : String) (o : HttpOutcome) :
    statusOk (flightsRun ogn dst dd rd ad ch inf st fc mp cur al key o).1 = true := by
  unfold flightsRun
  exact serpRun_statusOk _ _ _ _ (fun sr r hb => by
    obtain ⟨best, other, ai, pi, meta, rfl⟩ := flightsBuild_ok_shape _ _ _ _ _ _ hb
    exact statusOk_success _)

theorem google_flights_statusOk (ogn dst dd : String) (rd : Option String)
    (ad ch inf : Int) (st : Option Stops) (fc : FlightClass) (mp : Option Int)
    (cur : String) (al : Option (List String)) (td : PyDate) (env : Env)
    (o : HttpOutcome) :
    statusOk (google_flights_search ogn dst dd rd ad ch inf st fc mp cur al td env o).1 =
      true := by
  unfold google_flights_search
  rcases hk : strTruthy env.SERPAPI_API_KEY with _ | key <;> simp only [hk]
  · exact statusOk_errObj _
  rcases hd : parsePyDate dd with _ | dep <;> simp only [hd]
  · exact statusOk_errObj _
  by_cases hlt : dateLt dep td = true <;> simp only [hlt, if_true, if_false]
  · exact statusOk_errObj _
  · rcases hr : strTruthy rd with _ | r <;> simp only [hr]
    · exact flightsRun_statusOk ogn dst dd rd ad ch inf st fc mp cur al key o
    rcases hpr : parsePyDate r with _ | ret <;> simp only [hpr]
    · exact statusOk_errObj _
    by_cases hlt2 : dateLt ret dep = true <;> simp only [hlt2, if_true, if_false]
    · exact statusOk_errObj _
    · exact flightsRun_statusOk ogn dst dd rd ad ch inf st fc mp cur al key o

theorem web_fetch_statusOk (u : String) (e : Bool) (o : FetchOutcome) :
    statusOk (web_fetch u e o).1 = true := by
  cases o with
  | networkError m => exact statusOk_errObj _
  | response code text size headers soup =>
    simp only [web_fetch]
    split
    · exact statusOk_errObj _
    · split
      · exact statusOk_success _
      · exact statusOk_success _

theorem geocode_raw_or_error (c : String) (o : HttpOutcome) :
    hasErrorStr (geocode c o).1 = true ∨
      ∃ code text data, o = .response code text (.ok data) ∧ (geocode c o).1 = data := by
  cases o with
  | networkError m => exact Or.inl (hasErrorStr_errDict _)
  | response code text body =>
    simp only [geocode]
    split
    · exact Or.inl (hasErrorStr_errDict _)
    · cases body with
      | error e => exact Or.inl (hasErrorStr_errDict _)
      | ok data =>
        rcases hp : data.pyIn "results" with e | b <;> simp only [hp]
        · exact Or.inl (hasErrorStr_errDict _)
        · cases b
          · exact Or.inl (hasErrorStr_errDict _)
          · exact Or.inr ⟨code, text, data, rfl, rfl⟩

theorem get_weather_raw_or_error (la lo : String) (o : HttpOutcome) :
    hasErrorStr (get_weather la lo o).1 = true ∨
      ∃ code text data, o = .response code text (.ok data) ∧
        (get_weather la lo o).1 = data := by
  cases o with
  | networkError m => exact Or.inl (hasErrorStr_errDict _)
  | response code text body =>
    simp only [get_weather]
    split
    · exact Or.inl (hasErrorStr_errDict _)
    · cases body with
      | error e => exact Or.inl (hasErrorStr_errDict _)
      | ok data => exact Or.inr ⟨code, text, data, rfl, rfl⟩

-- ## Claim theorems

/-- C1 (amended): the five SerpAPI-backed tools — web_search, web_fetch,
youtube_search, scholar_search and google_flights_search — return, for every
reachable input, a dictionary with a "status" key whose value is "success"
or "error"; geocode and get_weather do not: they return the raw parsed API
reply on success and a dictionary carrying only an "error" message (with no
"status" key) on failure. -/
theorem C1_amended :
    (∀ q n i t env o, statusOk (web_search q n i t env o).1 = true) ∧
    (∀ u e o, statusOk (web_fetch u e o).1 = true) ∧
    (∀ q n s ud d env o, statusOk (youtube_search q n s ud d env o).1 = true) ∧
    (∀ q n s p a env o, statusOk (scholar_search q n s p a env o).1 = true) ∧
    (∀ ogn dst dd rd ad ch inf st fc mp cur al td env o,
      statusOk (google_flights_search ogn dst dd rd ad ch inf st fc mp cur al td
        env o).1 = true) ∧
    (∀ c o, hasErrorStr (geocode c o).1 = true ∨
      ∃ code text data, o = .response code text (.ok data) ∧ (geocode c o).1 = data) ∧
    (∀ la lo o, hasErrorStr (get_weather la lo o).1 = true ∨
      ∃ code text data, o = .response code text (.ok data) ∧
        (get_weather la lo o).1 = data) :=
  ⟨web_search_statusOk, web_fetch_statusOk, youtube_search_statusOk,
    scholar_search_statusOk, google_flights_statusOk, geocode_raw_or_error,
    get_weather_raw_or_error⟩

/-- C1 (counterexample): on a network failure, geocode returns a dictionary
with no "status" key at all, refuting the claim that every tool returns a
"status" of "success" or "error". -/
theorem C1_counterexample :
    Json.lookup "status" (geocode "Paris" (HttpOutcome.networkError "boom")).1 = none ∧
    statusOk (geocode "Paris" (HttpOutcome.networkError "boom")).1 = false :=
  ⟨rfl, rfl⟩

theorem serpRun_200_ok (params : Params) (pre : String)
    (build : Json → Except String Json) (text : String) (sr : Json) :
    (serpRun params pre build (.response 200 text (.ok sr))).1 =
      (match build sr with
        | .ok r => r
        | .error e => errObj (pre ++ e)) := by
  simp only [serpRun]
  split
  · rename_i heq
    exact absurd rfl heq
  · rcases hb : build sr with e | r <;> simp [hb]

theorem webSearchOrganic_length (n : Int) (hn : 0 ≤ n) (sr : Json)
    (organic : List Json) (h : webSearchOrganic n sr = .ok organic) :
    organic.length ≤ n.toNat := by
  unfold webSearchOrganic at h
  rcases h1 : sr.pyIn "organic_results" with e | b
  · simp only [h1] at h
    exact Except.noConfusion h
  · cases b <;> simp only [h1] at h
    · injection h with h
      rw [← h]
      simp
    · rcases h2 : sr.pyIndex "organic_results" with e | v <;> simp only [h2] at h
      · exact Except.noConfusion h
      rcases h3 : v.pySliceList n with e | items <;> simp only [h3] at h
      · exact Except.noConfusion h
      rw [exMapM_length _ items organic h]
      exact pySliceList_length n hn v items h3

theorem youtubeVideos_length (n : Int) (hn : 0 ≤ n) (sr : Json)
    (videos : List Json) (h : youtubeVideos n sr = .ok videos) :
    videos.length ≤ n.toNat := by
  unfold youtubeVideos at h
  rcases h1 : sr.pyIn "video_results" with e | b
  · simp only [h1] at h
    exact Except.noConfusion h
  · cases b <;> simp only [h1] at h
    · injection h with h
      rw [← h]
      simp
    · rcases h2 : sr.pyIndex "video_results" with e | v <;> simp only [h2] at h
      · exact Except.noConfusion h
      rcases h3 : v.pySliceList n with e | items <;> simp only [h3] at h
      · exact Except.noConfusion h
      rw [exMapM_length _ items videos h]
      exact pySliceList_length n hn v items h3

theorem arrKeyLen_organic (q : String) (organic : List Json)
    (extras : List (String × Json)) :
    arrKeyLen "organic_results" (.obj (("status", Json.str "success") ::
      ("query", Json.str q) :: ("organic_results", Json.arr organic) :: extras)) =
      some organic.length := rfl

theorem arrKeyLen_videos (q : String) (videos : List Json)
    (extras : List (String × Json)) :
    arrKeyLen "videos" (.obj (("status", Json.str "success") ::
      ("query", Json.str q) :: ("videos", Json.arr videos) :: extras)) =
      some videos.length := rfl

theorem arrKeyLen_org_errObj (msg : String) :
    arrKeyLen "organic_results" (errObj msg) = none := rfl

theorem arrKeyLen_vid_errObj (msg : String) :
    arrKeyLen "videos" (errObj msg) = none := rfl

theorem arrKeyLen_links_errObj (msg : String) :
    arrKeyLen "links" (errObj msg) = none := rfl

theorem arrKeyLen_links_extract (u ct : String) (sz : Int)
    (hs : List (String × Json)) (tj : Json) (tc : String)
    (mt : List (String × Json)) (links : List Json) :
    arrKeyLen "links" (.obj [("status", Json.str "success"), ("url", .str u),
      ("content_type", .str ct), ("size", .num sz), ("headers", .obj hs),
      ("title", tj), ("text_content", .str tc), ("meta_tags", .obj mt),
      ("links", .arr links)]) = some links.length := rfl

theorem arrKeyLen_links_raw (u ct : String) (sz : Int)
    (hs : List (String × Json)) (raw : String) :
    arrKeyLen "links" (.obj [("status", Json.str "success"), ("url", .str u),
      ("content_type", .str ct), ("size", .num sz), ("headers", .obj hs),
      ("raw_content", .str raw)]) = none := rfl

theorem web_search_cap (q : String) (n : Int) (i : Option Bool) (t : Option String)
    (env : Env) (o : HttpOutcome) (hn : 0 ≤ n) (len : Nat)
    (h : arrKeyLen "organic_results" (web_search q (some n) i t env o).1 = some len) :
    len ≤ n.toNat := by
  unfold web_search at h
  simp only [Option.getD_some] at h
  rcases hk : strTruthy env.SERPAPI_API_KEY with _ | key <;> simp only [hk] at h
  · rw [arrKeyLen_org_errObj] at h
    exact Option.noConfusion h
  · rcases o with m | ⟨code, text, body⟩
    · rw [serpRun_network, arrKeyLen_org_errObj] at h
      exact Option.noConfusion h
    · by_cases hc : code = 200
      · subst hc
        cases body with
        | error e =>
          rw [serpRun_parse200, arrKeyLen_org_errObj] at h
          exact Option.noConfusion h
        | ok sr =>
          rw [serpRun_200_ok] at h
          rcases hb : webSearchBuild q n (i.getD false) sr with e | r <;>
            simp only [hb] at h
          · rw [arrKeyLen_org_errObj] at h
            exact Option.noConfusion h
          · obtain ⟨organic, extras, horg, rfl⟩ := webSearchBuild_ok_shape _ _ _ _ _ hb
            rw [arrKeyLen_organic] at h
            injection h with h
            rw [← h]
            exact webSearchOrganic_length n hn sr organic horg
      · rw [serpRun_non200 _ _ _ _ _ _ hc, arrKeyLen_org_errObj] at h
        exact Option.noConfusion h

theorem youtube_search_cap (q : String) (n : Int) (s : SortBy)
    (ud : Option UploadDate) (d : Option Duration) (env : Env) (o : HttpOutcome)
    (hn : 0 ≤ n) (len : Nat)
    (h : arrKeyLen "videos" (youtube_search q n s ud d env o).1 = some len) :
    len ≤ n.toNat := by
  unfold youtube_search at h
  rcases hk : strTruthy env.SERPAPI_API_KEY with _ | key <;> simp only [hk] at h
  · rw [arrKeyLen_vid_errObj] at h
    exact Option.noConfusion h
  · rcases o with m | ⟨code, text, body⟩
    · rw [serpRun_network, arrKeyLen_vid_errObj] at h
      exact Option.noConfusion h
    · by_cases hc : code = 200
      · subst hc
        cases body with
        | error e =>
          rw [serpRun_parse200, arrKeyLen_vid_errObj] at h
          exact Option.noConfusion h
        | ok sr =>
          rw [serpRun_200_ok] at h
          rcases hb : youtubeBuild q n sr with e | r <;> simp only [hb] at h
          · rw [arrKeyLen_vid_errObj] at h
            exact Option.noConfusion h
          · obtain ⟨videos, extras, hvid, rfl⟩ := youtubeBuild_ok_shape _ _ _ _ hb
            rw [arrKeyLen_videos] at h
            injection h with h
            rw [← h]
            exact youtubeVideos_length n hn sr videos hvid
      · rw [serpRun_non200 _ _ _ _ _ _ hc, arrKeyLen_vid_errObj] at h
        exact Option.noConfusion h

theorem web_fetch_links_cap (u : String) (e : Bool) (o : FetchOutcome) (len : Nat)
    (h : arrKeyLen "links" (web_fetch u e o).1 = some len) : len ≤ 100 := by
  cases o with
  | networkError m =>
    rw [show (web_fetch u e (.networkError m)).1 =
      errObj ("Network error occurred: " ++ m) from rfl, arrKeyLen_links_errObj] at h
    exact Option.noConfusion h
  | response code text size headers soup =>
    simp only [web_fetch] at h
    split at h
    · rw [arrKeyLen_links_errObj] at h
      exact Option.noConfusion h
    · split at h
      · simp only [List.cons_append, List.nil_append] at h
        rw [show arrKeyLen "links" _ =
          some ((fetchLinks soup.anchors).take 100).length from arrKeyLen_links_extract
            u _ _ _ _ _ _ _] at h
        injection h with h
        rw [← h]
        exact List.length_take_le 100 (fetchLinks soup.anchors)
      · simp only [List.cons_append, List.nil_append] at h
        rw [arrKeyLen_links_raw] at h
        exact Option.noConfusion h

theorem scholar_request_num (q : String) (n : Int) (s : ScholarSort)
    (p : Option PubDate) (a : Option String) (env : Env) (key : String)
    (o : HttpOutcome) (hk : strTruthy env.SERPAPI_API_KEY = some key) :
    ∃ ps, (scholar_search q n s p a env o).2 = [ps] ∧
      ("num", toString (min n 20)) ∈ ps := by
  unfold scholar_search
  simp only [hk]
  exact ⟨_, serpRun_requests _ _ _ _, by simp [scholarParams]⟩

theorem web_search_request_num (q : String) (n : Int) (i : Option Bool)
    (t : Option String) (env : Env) (key : String) (o : HttpOutcome)
    (hk : strTruthy env.SERPAPI_API_KEY = some key) :
    ∃ ps, (web_search q (some n) i t env o).2 = [ps] ∧
      ("num", toString (min n 100)) ∈ ps := by
  unfold web_search
  simp only [hk, Option.getD_some]
  exact ⟨_, serpRun_requests _ _ _ _, by simp [webSearchParams]⟩

/-- C2 (amended): web_search and youtube_search return at most num_results
result items, and web_fetch returns at most 100 links.  scholar_search does
not truncate the returned collection: it only caps the count requested from
the API at min(num_results, 20) in the outbound request (web_search likewise
requests at most min(num_results, 100)); the size of its returned
organic_results list follows the API reply, not num_results. -/
theorem C2_amended :
    (∀ q n i t env o len, 0 ≤ n →
      arrKeyLen "organic_results" (web_search q (some n) i t env o).1 = some len →
      len ≤ n.toNat) ∧
    (∀ q n s ud d env o len, 0 ≤ n →
      arrKeyLen "videos" (youtube_search q n s ud d env o).1 = some len →
      len ≤ n.toNat) ∧
    (∀ u e o len, arrKeyLen "links" (web_fetch u e o).1 = some len → len ≤ 100) ∧
    (∀ q n s p a env key o, strTruthy env.SERPAPI_API_KEY = some key →
      ∃ ps, (scholar_search q n s p a env o).2 = [ps] ∧
        ("num", toString (min n 20)) ∈ ps) ∧
    (∀ q n i t env key o, strTruthy env.SERPAPI_API_KEY = some key →
      ∃ ps, (web_search q (some n) i t env o).2 = [ps] ∧
        ("num", toString (min n 100)) ∈ ps) :=
  ⟨fun q n i t env o len hn h => web_search_cap q n i t env o hn len h,
    fun q n s ud d env o len hn h => youtube_search_cap q n s ud d env o hn len h,
    fun u e o len h => web_fetch_links_cap u e o len h,
    fun q n s p a env key o hk => scholar_request_num q n s p a env key o hk,
    fun q n i t env key o hk => web_search_request_num q n i t env key o hk⟩

/-- C2 (witness): at a concrete input with num_results 1 and a two-item
reply, the web_search cap of the amended claim applies and gives 1 item. -/
theorem C2_witness :
    (0 : Int) ≤ 1 ∧
    arrKeyLen "organic_results" (web_search "q" (some 1) none none
      ⟨none, none, none, some "k"⟩ (.response 200 ""
        (.ok (.obj [("organic_results", .arr [.obj [], .obj []])])))).1 = some 1 ∧
    1 ≤ (1 : Int).toNat :=
  ⟨by decide, by rfl,
    C2_amended.1 "q" 1 none none ⟨none, none, none, some "k"⟩
      (.response 200 "" (.ok (.obj [("organic_results", .arr [.obj [], .obj []])])))
      1 (by decide) (by rfl)⟩

/-- C2 (counterexample): scholar_search asked for 1 result returns 2 items
when the API reply carries 2, because the source never truncates the
organic_results collection client-side. -/
theorem C2_counterexample :
    arrKeyLen "organic_results" (scholar_search "x" 1 .relevance none none
      ⟨none, none, none, some "k"⟩ (.response 200 ""
        (.ok (.obj [("organic_results", .arr [.obj [], .obj []])])))).1 = some 2 := rfl

/-- C3 (amended): at startup only OPENAI_API_KEY is validated — its absence
(or emptiness) is the sole configuration error; OPENAI_API_BASE_URL may be
absent without error, an absent MODEL_NAME silently falls back to the
default model name, and SERPAPI_API_KEY is not read at startup at all: each
search tool reads it at invocation time and returns a tool-level error
dictionary, without issuing a request, when it is missing. -/
theorem C3_amended :
    (∀ env, (startup env).isOk = (strTruthy env.OPENAI_API_KEY).isSome) ∧
    (∀ base key serp, startup ⟨base, some key, none, serp⟩ =
      if key == "" then .error "Please set OPENAI_API_KEY in your .env file"
      else .ok ⟨base, key, "gpt-4o"⟩) ∧
    (∀ q n i t base key model o, web_search q n i t ⟨base, key, model, none⟩ o =
      (errObj "SERPAPI_API_KEY not found in environment variables. Please set this variable to use web search.", [])) := by
  refine ⟨fun env => ?_, fun base key serp => ?_, fun q n i t base key model o => rfl⟩
  · unfold startup
    rcases h : strTruthy env.OPENAI_API_KEY with _ | key <;>
      simp [h, Except.isOk, Except.toBool]
  · unfold startup strTruthy
    by_cases h : key == "" <;> simp [h]

/-- C3 (counterexample): with OPENAI_API_KEY set but the base URL, model
name and search-provider key all absent, startup succeeds without raising
any configuration error; the missing search key surfaces only later, as a
tool-level error result at invocation time. -/
theorem C3_counterexample :
    startup ⟨none, some "k", none, none⟩ = .ok ⟨none, "k", "gpt-4o"⟩ ∧
    (web_search "q" none none none ⟨none, some "k", none, none⟩
      (.networkError "x")).1 =
      errObj "SERPAPI_API_KEY not found in environment variables. Please set this variable to use web search." :=
  ⟨rfl, rfl⟩

/-- C4 (amended): a call to google_flights_search whose departure_date does
not parse as a calendar date, or parses to a date before today, or whose
return_date is non-empty and either does not parse or is before the
departure date, returns an error dictionary and issues no outbound request.
An empty-string return_date is treated as absent and is not validated (so
such a call can proceed to the network). -/
theorem C4_amended (ogn dst dd : String) (rd : Option String) (ad ch inf : Int)
    (st : Option Stops) (fc : FlightClass) (mp : Option Int) (cur : String)
    (al : Option (List String)) (td : PyDate) (env : Env) (o : HttpOutcome)
    (h : flightDatesRejected dd rd td = true) :
    hasErrorStr (google_flights_search ogn dst dd rd ad ch inf st fc mp cur al td
      env o).1 = true ∧
    (google_flights_search ogn dst dd rd ad ch inf st fc mp cur al td env o).2 = [] := by
  unfold google_flights_search
  rcases hk : strTruthy env.SERPAPI_API_KEY with _ | key <;> simp only [hk]
  · exact ⟨hasErrorStr_errObj _, by trivial⟩
  unfold flightDatesRejected at h
  rcases hd : parsePyDate dd with _ | dep <;> simp only [hd] at h ⊢
  · exact ⟨hasErrorStr_errObj _, by trivial⟩
  by_cases hlt : dateLt dep td = true <;>
    simp only [hlt, Bool.false_eq_true, eq_self_iff_true, if_true, if_false] at h ⊢
  · exact ⟨hasErrorStr_errObj _, by trivial⟩
  · rcases hr : strTruthy rd with _ | r <;> simp only [hr] at h ⊢
    · exact absurd h (by simp)
    rcases hpr : parsePyDate r with _ | ret <;> simp only [hpr] at h ⊢
    · exact ⟨hasErrorStr_errObj _, by trivial⟩
    · simp only [h, eq_self_iff_true, if_true]
      exact ⟨hasErrorStr_errObj _, by trivial⟩

/-- C4 (witness): a malformed departure date is rejected with an error
dictionary and no outbound request. -/
theorem C4_witness :
    flightDatesRejected "bad-date" none ⟨2026, 10, 12⟩ = true ∧
    (hasErrorStr (google_flights_search "NYC" "LHR" "bad-date" none 1 0 0 none
      .economy none "USD" none ⟨2026, 10, 12⟩ ⟨none, none, none, some "k"⟩
      (.networkError "x")).1 = true ∧
    (google_flights_search "NYC" "LHR" "bad-date" none 1 0 0 none .economy none
      "USD" none ⟨2026, 10, 12⟩ ⟨none, none, none, some "k"⟩
      (.networkError "x")).2 = []) :=
  ⟨rfl, C4_amended "NYC" "LHR" "bad-date" none 1 0 0 none .economy none "USD" none
    ⟨2026, 10, 12⟩ ⟨none, none, none, some "k"⟩ (.networkError "x") (by rfl)⟩

theorem serpRun_err_network (m : String) : ∀ (params : Params) (pre : String)
    (build : Json → Except String Json),
    hasErrorStr (serpRun params pre build (.networkError m)).1 = true :=
  fun _ _ _ => hasErrorStr_errObj _

theorem serpRun_err_non200 (c : Nat) (tx : String) (b : Except String Json)
    (hc : c ≠ 200) : ∀ (params : Params) (pre : String)
    (build : Json → Except String Json),
    hasErrorStr (serpRun params pre build (.response c tx b)).1 = true := by
  intro params pre build
  rw [serpRun_non200 _ _ _ _ _ _ hc]
  exact hasErrorStr_errObj _

theorem serpRun_err_parse (tx e : String) : ∀ (params : Params) (pre : String)
    (build : Json → Except String Json),
    hasErrorStr (serpRun params pre build (.response 200 tx (.error e))).1 = true := by
  intro params pre build
  rw [serpRun_parse200]
  exact hasErrorStr_errObj _

theorem web_search_err_oracle (q : String) (n : Option Int) (i : Option Bool)
    (t : Option String) (env : Env) (o : HttpOutcome)
    (ho : ∀ (params : Params) (pre : String) (build : Json → Except String Json),
      hasErrorStr (serpRun params pre build o).1 = true) :
    hasErrorStr (web_search q n i t env o).1 = true := by
  unfold web_search
  rcases hk : strTruthy env.SERPAPI_API_KEY with _ | key <;> simp only [hk]
  · exact hasErrorStr_errObj _
  · exact ho _ _ _

theorem youtube_search_err_oracle (q : String) (n : Int) (s : SortBy)
    (ud : Option UploadDate) (d : Option Duration) (env : Env) (o : HttpOutcome)
    (ho : ∀ (params : Params) (pre : String) (build : Json → Except String Json),
      hasErrorStr (serpRun params pre build o).1 = true) :
    hasErrorStr (youtube_search q n s ud d env o).1 = true := by
  unfold youtube_search
  rcases hk : strTruthy env.SERPAPI_API_KEY with _ | key <;> simp only [hk]
  · exact hasErrorStr_errObj _
  · exact ho _ _ _

theorem scholar_search_err_oracle (q : String) (n : Int) (s : ScholarSort)
    (p : Option PubDate) (a : Option String) (env : Env) (o : HttpOutcome)
    (ho : ∀ (params : Params) (pre : String) (build : Json → Except String Json),
      hasErrorStr (serpRun params pre build o).1 = true) :
    hasErrorStr (scholar_search q n s p a env o).1 = true := by
  unfold scholar_search
  rcases hk : strTruthy env.SERPAPI_API_KEY with _ | key <;> simp only [hk]
  · exact hasErrorStr_errObj _
  · exact ho _ _ _

theorem flights_err_oracle (ogn dst dd : String) (rd : Option String)
    (ad ch inf : Int) (st : Option Stops) (fc : FlightClass) (mp : Option Int)
    (cur : String) (al : Option (List String)) (td : PyDate) (env : Env)
    (o : HttpOutcome)
    (ho : ∀ (params : Params) (pre : String) (build : Json → Except String Json),
      hasErrorStr (serpRun params pre build o).1 = true) :
    hasErrorStr (google_flights_search ogn dst dd rd ad ch inf st fc mp cur al td
      env o).1 = true := by
  unfold google_flights_search
  rcases hk : strTruthy env.SERPAPI_API_KEY with _ | key <;> simp only [hk]
  · exact hasErrorStr_errObj _
  rcases hd : parsePyDate dd with _ | dep <;> simp only [hd]
  · exact hasErrorStr_errObj _
  by_cases hlt : dateLt dep td = true <;>
    simp only [hlt, Bool.false_eq_true, eq_self_iff_true, if_true, if_false]
  · exact hasErrorStr_errObj _
  · rcases hr : strTruthy rd with _ | r <;> simp only [hr]
    · unfold flightsRun
      exact ho _ _ _
    rcases hpr : parsePyDate r with _ | ret <;> simp only [hpr]
    · exact hasErrorStr_errObj _
    by_cases hlt2 : dateLt ret dep = true <;>
      simp only [hlt2, Bool.false_eq_true, eq_self_iff_true, if_true, if_false]
    · exact hasErrorStr_errObj _
    · unfold flightsRun
      exact ho _ _ _

theorem geocode_err_http (c : String) (cd : Nat) (tx : String)
    (b : Except String Json) (h4 : 400 ≤ cd) (h6 : cd < 600) :
    hasErrorStr (geocode c (.response cd tx b)).1 = true := by
  simp only [geocode]
  rw [if_pos ⟨h4, h6⟩]
  exact hasErrorStr_errDict _

theorem geocode_err_parse (c : String) (cd : Nat) (tx e : String)
    (hn : ¬(400 ≤ cd ∧ cd < 600)) :
    hasErrorStr (geocode c (.response cd tx (.error e))).1 = true := by
  simp only [geocode]
  rw [if_neg hn]
  exact hasErrorStr_errDict _

theorem get_weather_err_http (la lo : String) (cd : Nat) (tx : String)
    (b : Except String Json) (h4 : 400 ≤ cd) (h6 : cd < 600) :
    hasErrorStr (get_weather la lo (.response cd tx b)).1 = true := by
  simp only [get_weather]
  rw [if_pos ⟨h4, h6⟩]
  exact hasErrorStr_errDict _

theorem get_weather_err_parse (la lo : String) (cd : Nat) (tx e : String)
    (hn : ¬(400 ≤ cd ∧ cd < 600)) :
    hasErrorStr (get_weather la lo (.response cd tx (.error e))).1 = true := by
  simp only [get_weather]
  rw [if_neg hn]
  exact hasErrorStr_errDict _

theorem geocode_requests (c : String) (o : HttpOutcome) :
    (geocode c o).2 = [[("url", geocodeUrl c)]] := by
  cases o with
  | networkError m => rfl
  | response code text body =>
    simp only [geocode]
    split
    · rfl
    · cases body with
      | error e => rfl
      | ok data =>
        rcases hp : data.pyIn "results" with e | b
        · simp [hp]
        · cases b <;> simp [hp]

theorem get_weather_requests (la lo : String) (o : HttpOutcome) :
    (get_weather la lo o).2 = [[("url", weatherUrl la lo)]] := by
  cases o with
  | networkError m => rfl
  | response code text body =>
    simp only [get_weather]
    split
    · rfl
    · cases body <;> rfl

theorem web_fetch_requests (u : String) (e : Bool) (o : FetchOutcome) :
    (web_fetch u e o).2 = [[("url", u)]] := by
  cases o with
  | networkError m => rfl
  | response code text size headers soup =>
    simp only [web_fetch]
    split
    · rfl
    · split <;> rfl

theorem web_search_requests_le (q : String) (n : Option Int) (i : Option Bool)
    (t : Option String) (env : Env) (o : HttpOutcome) :
    (web_search q n i t env o).2.length ≤ 1 := by
  unfold web_search
  rcases hk : strTruthy env.SERPAPI_API_KEY with _ | key <;> simp only [hk]
  · simp
  · rw [serpRun_requests]
    simp

theorem youtube_search_requests_le (q : String) (n : Int) (s : SortBy)
    (ud : Option UploadDate) (d : Option Duration) (env : Env) (o : HttpOutcome) :
    (youtube_search q n s ud d env o).2.length ≤ 1 := by
  unfold youtube_search
  rcases hk : strTruthy env.SERPAPI_API_KEY with _ | key <;> simp only [hk]
  · simp
  · rw [serpRun_requests]
    simp

theorem scholar_search_requests_le (q : String) (n : Int) (s : ScholarSort)
    (p : Option PubDate) (a : Option String) (env : Env) (o : HttpOutcome) :
    (scholar_search q n s p a env o).2.length ≤ 1 := by
  unfold scholar_search
  rcases hk : strTruthy env.SERPAPI_API_KEY with _ | key <;> simp only [hk]
  · simp
  · rw [serpRun_requests]
    simp

theorem flights_requests_le (ogn dst dd : String) (rd : Option String)
    (ad ch inf : Int) (st : Option Stops) (fc : FlightClass) (mp : Option Int)
    (cur : String) (al : Option (List String)) (td : PyDate) (env : Env)
    (o : HttpOutcome) :
    (google_flights_search ogn dst dd rd ad ch inf st fc mp cur al td
      env o).2.length ≤ 1 := by
  unfold google_flights_search
  rcases hk : strTruthy env.SERPAPI_API_KEY with _ | key <;> simp only [hk]
  · simp
  rcases hd : parsePyDate dd with _ | dep <;> simp only [hd]
  · simp
  by_cases hlt : dateLt dep td = true <;>
    simp only [hlt, Bool.false_eq_true, eq_self_iff_true, if_true, if_false]
  · simp
  · rcases hr : strTruthy rd with _ | r <;> simp only [hr]
    · unfold flightsRun
      rw [serpRun_requests]
      simp
    rcases hpr : parsePyDate r with _ | ret <;> simp only [hpr]
    · simp
    by_cases hlt2 : dateLt ret dep = true <;>
      simp only [hlt2, Bool.false_eq_true, eq_self_iff_true, if_true, if_false]
    · simp
    · unfold flightsRun
      rw [serpRun_requests]
      simp

/-- C5 (amended): no tool raises: network failure always yields an error
dictionary, as does a JSON parse failure of a 200 reply; a non-200 HTTP
status yields an error dictionary in the five SerpAPI-backed tools, while
geocode and get_weather convert only statuses in [400, 600) (those
raise_for_status raises for) into an error dictionary — any other non-200
status with a parseable body is passed through as a success.  Every tool
issues at most one outbound HTTP GET per invocation, with no retry. -/
theorem C5_amended :
    (∀ q n i t env m,
      hasErrorStr (web_search q n i t env (.networkError m)).1 = true) ∧
    (∀ q n i t env c tx b, c ≠ 200 →
      hasErrorStr (web_search q n i t env (.response c tx b)).1 = true) ∧
    (∀ q n i t env tx e,
      hasErrorStr (web_search q n i t env (.response 200 tx (.error e))).1 = true) ∧
    (∀ q n s ud d env m,
      hasErrorStr (youtube_search q n s ud d env (.networkError m)).1 = true) ∧
    (∀ q n s ud d env c tx b, c ≠ 200 →
      hasErrorStr (youtube_search q n s ud d env (.response c tx b)).1 = true) ∧
    (∀ q n s ud d env tx e,
      hasErrorStr (youtube_search q n s ud d env
        (.response 200 tx (.error e))).1 = true) ∧
    (∀ q n s p a env m,
      hasErrorStr (scholar_search q n s p a env (.networkError m)).1 = true) ∧
    (∀ q n s p a env c tx b, c ≠ 200 →
      hasErrorStr (scholar_search q n s p a env (.response c tx b)).1 = true) ∧
    (∀ q n s p a env tx e,
      hasErrorStr (scholar_search q n s p a env
        (.response 200 tx (.error e))).1 = true) ∧
    (∀ ogn dst dd rd ad ch inf st fc mp cur al td env m,
      hasErrorStr (google_flights_search ogn dst dd rd ad ch inf st fc mp cur al td
        env (.networkError m)).1 = true) ∧
    (∀ ogn dst dd rd ad ch inf st fc mp cur al td env c tx b, c ≠ 200 →
      hasErrorStr (google_flights_search ogn dst dd rd ad ch inf st fc mp cur al td
        env (.response c tx b)).1 = true) ∧
    (∀ ogn dst dd rd ad ch inf st fc mp cur al td env tx e,
      hasErrorStr (google_flights_search ogn dst dd rd ad ch inf st fc mp cur al td
        env (.response 200 tx (.error e))).1 = true) ∧
    (∀ u x m, hasErrorStr (web_fetch u x (.networkError m)).1 = true) ∧
    (∀ u x c tx sz hs sp, c ≠ 200 →
      hasErrorStr (web_fetch u x (.response c tx sz hs sp)).1 = true) ∧
    (∀ c m, hasErrorStr (geocode c (.networkError m)).1 = true) ∧
    (∀ c cd tx b, 400 ≤ cd → cd < 600 →
      hasErrorStr (geocode c (.response cd tx b)).1 = true) ∧
    (∀ c cd tx e, ¬(400 ≤ cd ∧ cd < 600) →
      hasErrorStr (geocode c (.response cd tx (.error e))).1 = true) ∧
    (∀ la lo m, hasErrorStr (get_weather la lo (.networkError m)).1 = true) ∧
    (∀ la lo cd tx b, 400 ≤ cd → cd < 600 →
      hasErrorStr (get_weather la lo (.response cd tx b)).1 = true) ∧
    (∀ la lo cd tx e, ¬(400 ≤ cd ∧ cd < 600) →
      hasErrorStr (get_weather la lo (.response cd tx (.error e))).1 = true) ∧
    (∀ c o, (geocode c o).2.length ≤ 1) ∧
    (∀ la lo o, (get_weather la lo o).2.length ≤ 1) ∧
    (∀ q n i t env o, (web_search q n i t env o).2.length ≤ 1) ∧
    (∀ u x o, (web_fetch u x o).2.length ≤ 1) ∧
    (∀ q n s ud d env o, (youtube_search q n s ud d env o).2.length ≤ 1) ∧
    (∀ q n s p a env o, (scholar_search q n s p a env o).2.length ≤ 1) ∧
    (∀ ogn dst dd rd ad ch inf st fc mp cur al td env o,
      (google_flights_search ogn dst dd rd ad ch inf st fc mp cur al td
        env o).2.length ≤ 1) := by
  refine ⟨?_, ?_, ?_, ?_, ?_, ?_, ?_, ?_, ?_, ?_, ?_, ?_, ?_, ?_, ?_, ?_, ?_, ?_,
    ?_, ?_, ?_, ?_, ?_, ?_, ?_, ?_, ?_⟩
  · exact fun q n i t env m => web_search_err_oracle q n i t env _ (serpRun_err_network m)
  · exact fun q n i t env c tx b hc =>
      web_search_err_oracle q n i t env _ (serpRun_err_non200 c tx b hc)
  · exact fun q n i t env tx e =>
      web_search_err_oracle q n i t env _ (serpRun_err_parse tx e)
  · exact fun q n s ud d env m =>
      youtube_search_err_oracle q n s ud d env _ (serpRun_err_network m)
  · exact fun q n s ud d env c tx b hc =>
      youtube_search_err_oracle q n s ud d env _ (serpRun_err_non200 c tx b hc)
  · exact fun q n s ud d env tx e =>
      youtube_search_err_oracle q n s ud d env _ (serpRun_err_parse tx e)
  · exact fun q n s p a env m =>
      scholar_search_err_oracle q n s p a env _ (serpRun_err_network m)
  · exact fun q n s p a env c tx b hc =>
      scholar_search_err_oracle q n s p a env _ (serpRun_err_non200 c tx b hc)
  · exact fun q n s p a env tx e =>
      scholar_search_err_oracle q n s p a env _ (serpRun_err_parse tx e)
  · exact fun ogn dst dd rd ad ch inf st fc mp cur al td env m =>
      flights_err_oracle ogn dst dd rd ad ch inf st fc mp cur al td env _
        (serpRun_err_network m)
  · exact fun ogn dst dd rd ad ch inf st fc mp cur al td env c tx b hc =>
      flights_err_oracle ogn dst dd rd ad ch inf st fc mp cur al td env _
        (serpRun_err_non200 c tx b hc)
  · exact fun ogn dst dd rd ad ch inf st fc mp cur al td env tx e =>
      flights_err_oracle ogn dst dd rd ad ch inf st fc mp cur al td env _
        (serpRun_err_parse tx e)
  · exact fun u x m => hasErrorStr_errObj _
  · intro u x c tx sz hs sp hc
    simp only [web_fetch]
    rw [if_pos hc]
    exact hasErrorStr_errObj _
  · exact fun c m => hasErrorStr_errDict _
  · exact fun c cd tx b h4 h6 => geocode_err_http c cd tx b h4 h6
  · exact fun c cd tx e hn => geocode_err_parse c cd tx e hn
  · exact fun la lo m => hasErrorStr_errDict _
  · exact fun la lo cd tx b h4 h6 => get_weather_err_http la lo cd tx b h4 h6
  · exact fun la lo cd tx e hn => get_weather_err_parse la lo cd tx e hn
  · intro c o
    rw [geocode_requests]
    simp
  · intro la lo o
    rw [get_weather_requests]
    simp
  · exact web_search_requests_le
  · intro u x o
    rw [web_fetch_requests]
    simp
  · exact youtube_search_requests_le
  · exact scholar_search_requests_le
  · exact flights_requests_le

/-- C5 (witness): concrete failing responses exercise the amended claim's
hypotheses: a 500 reply to web_search and a 404 reply to geocode both
produce error dictionaries, and the invocations issue at most one request. -/
theorem C5_witness :
    ((500 : Nat) ≠ 200 ∧
      hasErrorStr (web_search "q" none none none ⟨none, none, none, some "k"⟩
        (.response 500 "oops" (.ok (.obj [])))).1 = true) ∧
    ((400 : Nat) ≤ 404 ∧ (404 : Nat) < 600 ∧
      hasErrorStr (geocode "Paris" (.response 404 "nf" (.error "bad"))).1 = true) ∧
    (geocode "Paris" (.response 404 "nf" (.error "bad"))).2.length ≤ 1 := by
  obtain ⟨h1, h2, h3, h4, h5, h6, h7, h8, h9, h10, h11, h12, h13, h14, h15, h16,
    h17, h18, h19, h20, h21, h22, h23, h24, h25, h26, h27⟩ := C5_amended
  exact ⟨⟨by decide, h2 "q" none none none ⟨none, none, none, some "k"⟩ 500 "oops"
      (.ok (.obj [])) (by decide)⟩,
    ⟨by decide, by decide, h16 "Paris" 404 "nf" (.error "bad") (by decide) (by decide)⟩,
    h21 "Paris" (.response 404 "nf" (.error "bad"))⟩

/-- C5 (counterexample): geocode given a 201 reply — an HTTP non-200 status
— with a parseable body returns the raw body with no error string, refuting
the claim that every tool converts every non-200 status into an error
dictionary. -/
theorem C5_counterexample :
    hasErrorStr (geocode "Paris" (.response 201 ""
      (.ok (.obj [("results", .arr [])])))).1 = false ∧
    (geocode "Paris" (.response 201 "" (.ok (.obj [("results", .arr [])])))).1 =
      .obj [("results", .arr [])] :=
  ⟨rfl, rfl⟩

/-- C4 (counterexample): with return_date the empty string — not a
well-formed YYYY-MM-DD date — the call is not rejected: it issues an
outbound request and can succeed, refuting the claim as stated. -/
theorem C4_counterexample :
    (google_flights_search "NYC" "LHR" "2099-01-01" (some "") 1 0 0 none .economy
      none "USD" none ⟨2026, 10, 12⟩ ⟨none, none, none, some "k"⟩
      (.response 200 "" (.ok (.obj [])))).2.length = 1 ∧
    statusField (google_flights_search "NYC" "LHR" "2099-01-01" (some "") 1 0 0
      none .economy none "USD" none ⟨2026, 10, 12⟩ ⟨none, none, none, some "k"⟩
      (.response 200 "" (.ok (.obj [])))).1 = some "success" :=
  ⟨rfl, rfl⟩

/-- C6 (amended): after every completed turn the stored history is the
previous history — unchanged, as an initial segment — followed by exactly
the input representations of the runtime's streamed items, in arrival
order; a user-role entry appears in the stored history only if one was
among the streamed items.  The user's message of a turn is included only in
the input forwarded during that turn (the stored history plus the new
message, or the bare string on the first turn); it is not appended to the
stored history, so later turns' forwarded input lacks prior user messages
unless the runtime re-emits them. -/
theorem C6_amended (conversation : List Json) (user_input : String)
    (final_items : List StreamItem) :
    (stepConversation conversation final_items).take conversation.length =
      conversation ∧
    (stepConversation conversation final_items).drop conversation.length =
      final_items.filterMap itemInput ∧
    listHasRole "user" (stepConversation conversation final_items) =
      (listHasRole "user" conversation ||
        listHasRole "user" (final_items.filterMap itemInput)) ∧
    forwardedInput conversation user_input =
      (if conversation.isEmpty then RunInput.text user_input
        else RunInput.items (conversation ++ [userItem user_input])) := by
  refine ⟨?_, ?_, ?_, rfl⟩
  · simp [stepConversation]
  · simp [stepConversation]
  · simp [stepConversation, listHasRole, List.any_append]

/-- C6 (counterexample): a completed first turn whose streamed items are a
single assistant message leaves a stored history with no user-role item at
all — the user's message of that turn was dropped — and the next turn's
forwarded input therefore lacks it, refuting the claim that the history
retains every turn including all prior user messages. -/
theorem C6_counterexample :
    listHasRole "user" (stepConversation []
      [⟨true, .obj [("role", .str "assistant"), ("content", .str "hello")]⟩]) =
      false ∧
    forwardedInput (stepConversation []
      [⟨true, .obj [("role", .str "assistant"), ("content", .str "hello")]⟩])
      "next question" =
      .items [.obj [("role", .str "assistant"), ("content", .str "hello")],
        userItem "next question"] :=
  ⟨rfl, rfl⟩

/-- C7 (amended): one loop iteration terminates exactly when the lowercased
input line equals "exit" (so "EXIT" and "Exit" also terminate); any input
whose lowercase form differs from "exit" continues the loop with the
updated history. -/
theorem C7_amended (conversation : List Json) (user_input : String)
    (final_items : List StreamItem) :
    (chatLoopStep conversation user_input final_items = .exited ↔
      pyLower user_input = "exit") ∧
    (pyLower user_input ≠ "exit" →
      chatLoopStep conversation user_input final_items =
        .continued (stepConversation conversation final_items)) := by
  unfold chatLoopStep
  by_cases h : pyLower user_input = "exit" <;> simp [h]

/-- C7 (witness): "exit" terminates the loop and "hello" continues it. -/
theorem C7_witness :
    chatLoopStep [] "exit" [] = .exited ∧
    (pyLower "hello" ≠ "exit" ∧ chatLoopStep [] "hello" [] = .continued []) :=
  ⟨(C7_amended [] "exit" []).1.mpr (by decide),
    ⟨by decide, (C7_amended [] "hello" []).2 (by decide)⟩⟩

/-- C7 (counterexample): the input line "EXIT" is not equal to the sentinel
"exit", yet the loop terminates on it because the source lowercases the
input before comparing — refuting the claim that every line other than
"exit" continues the loop. -/
theorem C7_counterexample :
    chatLoopStep [] "EXIT" [] = .exited ∧ ("EXIT" == "exit") = false :=
  ⟨rfl, rfl⟩

/-- C8: each of the seven tools, lifted to a state transformer over an
arbitrary module-state type, leaves the state unchanged and computes a
result independent of it: the outcome is a function of the call's
arguments, the environment variables and the single HTTP response alone.
(The source bodies assign no module-level name and read no mutable module
state, which the lifts record.) -/
theorem C8_pure :
    (∀ (σ : Type) (s s2 : σ) (c : String) (o : HttpOutcome),
      (geocodeST c o s).2 = s ∧ (geocodeST c o s).1 = (geocodeST c o s2).1) ∧
    (∀ (σ : Type) (s s2 : σ) (la lo : String) (o : HttpOutcome),
      (get_weatherST la lo o s).2 = s ∧
      (get_weatherST la lo o s).1 = (get_weatherST la lo o s2).1) ∧
    (∀ (σ : Type) (s s2 : σ) q n i t env o,
      (web_searchST q n i t env o s).2 = s ∧
      (web_searchST q n i t env o s).1 = (web_searchST q n i t env o s2).1) ∧
    (∀ (σ : Type) (s s2 : σ) u x o,
      (web_fetchST u x o s).2 = s ∧
      (web_fetchST u x o s).1 = (web_fetchST u x o s2).1) ∧
    (∀ (σ : Type) (s s2 : σ) q n sb ud d env o,
      (youtube_searchST q n sb ud d env o s).2 = s ∧
      (youtube_searchST q n sb ud d env o s).1 =
        (youtube_searchST q n sb ud d env o s2).1) ∧
    (∀ (σ : Type) (s s2 : σ) q n sb p a env o,
      (scholar_searchST q n sb p a env o s).2 = s ∧
      (scholar_searchST q n sb p a env o s).1 =
        (scholar_searchST q n sb p a env o s2).1) ∧
    (∀ (σ : Type) (s s2 : σ) ogn dst dd rd ad ch inf st fc mp cur al td env o,
      (google_flights_searchST ogn dst dd rd ad ch inf st fc mp cur al td env o
        s).2 = s ∧
      (google_flights_searchST ogn dst dd rd ad ch inf st fc mp cur al td env o
        s).1 =
        (google_flights_searchST ogn dst dd rd ad ch inf st fc mp cur al td env o
          s2).1) :=
  ⟨fun _ _ _ _ _ => ⟨rfl, rfl⟩, fun _ _ _ _ _ _ => ⟨rfl, rfl⟩,
    fun _ _ _ _ _ _ _ _ _ => ⟨rfl, rfl⟩, fun _ _ _ _ _ _ => ⟨rfl, rfl⟩,
    fun _ _ _ _ _ _ _ _ _ _ => ⟨rfl, rfl⟩, fun _ _ _ _ _ _ _ _ _ _ => ⟨rfl, rfl⟩,
    fun _ _ _ _ _ _ _ _ _ _ _ _ _ _ _ _ _ _ => ⟨rfl, rfl⟩⟩

/-- C9: a call to web_search with time_period None behaves exactly like a
call with "past_year" — the outbound request carries tbs equal to qdr:y
rather than omitting the time filter — and a None num_results becomes 10
(the request carries num equal to 10) while a None include_news becomes
false: the None-defaulted call is literally the fully-defaulted call. -/
theorem C9_defaults (query : String) (env : Env) (key : String) (o : HttpOutcome)
    (h : strTruthy env.SERPAPI_API_KEY = some key) :
    web_search query none none none env o =
      web_search query (some 10) (some false) (some "past_year") env o ∧
    (web_search query none none none env o).2 =
      [[("q", query), ("api_key", key), ("num", "10"), ("safe", "active"),
        ("gl", "us"), ("hl", "en"), ("tbs", "qdr:y")]] := by
  refine ⟨rfl, ?_⟩
  unfold web_search
  simp only [h]
  exact serpRun_requests _ _ _ _

/-- C9 (witness): with the search key set, the None-defaulted request
carries num 10 and tbs qdr:y. -/
theorem C9_witness :
    strTruthy (some "k") = some "k" ∧
    (web_search "q" none none none ⟨none, none, none, some "k"⟩
      (.networkError "x")).2 =
      [[("q", "q"), ("api_key", "k"), ("num", "10"), ("safe", "active"),
        ("gl", "us"), ("hl", "en"), ("tbs", "qdr:y")]] :=
  ⟨rfl, (C9_defaults "q" ⟨none, none, none, some "k"⟩ "k" (.networkError "x") rfl).2⟩

theorem flightsRun_success (ogn dst dd : String) (rd : Option String)
    (ad ch inf : Int) (st : Option Stops) (fc : FlightClass) (mp : Option Int)
    (cur : String) (al : Option (List String)) (key : String) (o : HttpOutcome)
    (h : statusField (flightsRun ogn dst dd rd ad ch inf st fc mp cur al key o).1 =
      some "success") :
    Json.lookup "origin" (flightsRun ogn dst dd rd ad ch inf st fc mp cur al key
      o).1 = some (.str (pyUpper ogn)) ∧
    Json.lookup "destination" (flightsRun ogn dst dd rd ad ch inf st fc mp cur al
      key o).1 = some (.str (pyUpper dst)) ∧
    ∃ ps, (flightsRun ogn dst dd rd ad ch inf st fc mp cur al key o).2 = [ps] ∧
      ("departure_id", pyUpper ogn) ∈ ps ∧ ("arrival_id", pyUpper dst) ∈ ps := by
  unfold flightsRun at h ⊢
  rcases o with m | ⟨code, text, body⟩
  · rw [serpRun_network, statusField_errObj] at h
    exact absurd h (by decide)
  · by_cases hc : code = 200
    · subst hc
      cases body with
      | error e =>
        rw [serpRun_parse200, statusField_errObj] at h
        exact absurd h (by decide)
      | ok sr =>
        rw [serpRun_200_ok] at h ⊢
        rcases hb : flightsBuild ogn dst dd rd sr with e | r <;> simp only [hb] at h ⊢
        · rw [statusField_errObj] at h
          exact absurd h (by decide)
        · obtain ⟨best, other, ai, pi, meta, hr⟩ := flightsBuild_ok_shape _ _ _ _ _ _ hb
          subst hr
          refine ⟨rfl, rfl, _, serpRun_requests _ _ _ _, ?_, ?_⟩ <;>
            simp [flightsParams]
    · rw [serpRun_non200 _ _ _ _ _ _ hc, statusField_errObj] at h
      exact absurd h (by decide)

/-- C10: whenever google_flights_search succeeds, the origin and
destination fields of the result equal the inputs converted to upper case,
and the single outbound request carries the same upper-cased codes as
departure_id and arrival_id, whatever the input's letter case. -/
theorem C10_uppercase (ogn dst dd : String) (rd : Option String) (ad ch inf : Int)
    (st : Option Stops) (fc : FlightClass) (mp : Option Int) (cur : String)
    (al : Option (List String)) (td : PyDate) (env : Env) (o : HttpOutcome)
    (h : statusField (google_flights_search ogn dst dd rd ad ch inf st fc mp cur al
      td env o).1 = some "success") :
    Json.lookup "origin" (google_flights_search ogn dst dd rd ad ch inf st fc mp
      cur al td env o).1 = some (.str (pyUpper ogn)) ∧
    Json.lookup "destination" (google_flights_search ogn dst dd rd ad ch inf st fc
      mp cur al td env o).1 = some (.str (pyUpper dst)) ∧
    ∃ ps, (google_flights_search ogn dst dd rd ad ch inf st fc mp cur al td env
      o).2 = [ps] ∧
      ("departure_id", pyUpper ogn) ∈ ps ∧ ("arrival_id", pyUpper dst) ∈ ps := by
  unfold google_flights_search at h ⊢
  rcases hk : strTruthy env.SERPAPI_API_KEY with _ | key <;> simp only [hk] at h ⊢
  · rw [statusField_errObj] at h
    exact absurd h (by decide)
  rcases hd : parsePyDate dd with _ | dep <;> simp only [hd] at h ⊢
  · rw [statusField_errObj] at h
    exact absurd h (by decide)
  by_cases hlt : dateLt dep td = true <;>
    simp only [hlt, Bool.false_eq_true, eq_self_iff_true, if_true, if_false] at h ⊢
  · rw [statusField_errObj] at h
    exact absurd h (by decide)
  · rcases hr : strTruthy rd with _ | r <;> simp only [hr] at h ⊢
    · exact flightsRun_success ogn dst dd rd ad ch inf st fc mp cur al key o h
    rcases hpr : parsePyDate r with _ | ret <;> simp only [hpr] at h ⊢
    · rw [statusField_errObj] at h
      exact absurd h (by decide)
    by_cases hlt2 : dateLt ret dep = true <;>
      simp only [hlt2, Bool.false_eq_true, eq_self_iff_true, if_true, if_false] at h ⊢
    · rw [statusField_errObj] at h
      exact absurd h (by decide)
    · exact flightsRun_success ogn dst dd rd ad ch inf st fc mp cur al key o h

/-- C10 (witness): a successful lower-case call reports NYC and LHR and
sends them as departure_id and arrival_id. -/
theorem C10_witness :
    statusField (google_flights_search "nyc" "lhr" "2099-01-01" none 1 0 0 none
      .economy none "USD" none ⟨2026, 10, 12⟩ ⟨none, none, none, some "k"⟩
      (.response 200 "" (.ok (.obj [])))).1 = some "success" ∧
    (Json.lookup "origin" (google_flights_search "nyc" "lhr" "2099-01-01" none 1 0
      0 none .economy none "USD" none ⟨2026, 10, 12⟩ ⟨none, none, none, some "k"⟩
      (.response 200 "" (.ok (.obj [])))).1 = some (.str "NYC") ∧
    Json.lookup "destination" (google_flights_search "nyc" "lhr" "2099-01-01" none
      1 0 0 none .economy none "USD" none ⟨2026, 10, 12⟩
      ⟨none, none, none, some "k"⟩
      (.response 200 "" (.ok (.obj [])))).1 = some (.str "LHR") ∧
    ∃ ps, (google_flights_search "nyc" "lhr" "2099-01-01" none 1 0 0 none .economy
      none "USD" none ⟨2026, 10, 12⟩ ⟨none, none, none, some "k"⟩
      (.response 200 "" (.ok (.obj [])))).2 = [ps] ∧
      ("departure_id", "NYC") ∈ ps ∧ ("arrival_id", "LHR") ∈ ps) :=
  ⟨rfl, C10_uppercase "nyc" "lhr" "2099-01-01" none 1 0 0 none .economy none "USD"
    none ⟨2026, 10, 12⟩ ⟨none, none, none, some "k"⟩
    (.response 200 "" (.ok (.obj []))) rfl⟩
